import Mathlib

/-!
Verification development for the claude-a2a server.

Shallow embedding of the parts of the code base that the verified
properties speak about:

* `ClaudeSession` — the NDJSON worker-process wrapper
  (claude-session.ts): state machine, per-message promise plumbing,
  stdout line buffering, destroy / release.
* `ClaudeRunner` — the context → session pool (claude-runner.ts).
* `ClaudeAgentExecutor.execute` — the per-request pipeline
  (agent-executor.ts): empty check, agent resolution, scope check,
  budget check, agent-context binding, live-orphan check, dispatch.
* `SqliteTaskStore` — ownership-enforcing task persistence
  (task-store.ts): `save` upsert and `load` access policy.
* `SessionStore.loadFromDb` — restart recovery (session-store.ts).

Modelling conventions: JS promises become an explicit
`pendingId : Option Nat` (the identity of the registered
resolve/reject pair) plus an emitted `Completion` list; the single
`setTimeout` handle becomes a `timerArmed` flag (`clearTimeout` is
disarming); JSON parsing of an NDJSON line is abstracted by a
`parse : String → StreamLine` parameter since the claims dispatch on
the already-parsed shape; child-process side effects become the flags
`procKilled`, `stdinClosed`, `listenersDetached`; SQLite tables become
association lists keyed by the primary key; JSON blob columns keep the
serialized payload as the stored value; USD amounts are `Rat`.
-/

-- ===========================================================================
-- ClaudeSession (claude-session.ts)
-- ===========================================================================

/-- The session state machine of claude-session.ts. -/
inductive SessionState
  | initializing
  | idle
  | processing
  | dead
deriving DecidableEq, Repr

/-- Token usage quadruple of the stream `result` frame. -/
structure Usage where
  input_tokens : Nat
  output_tokens : Nat
  cache_creation_input_tokens : Nat
  cache_read_input_tokens : Nat
deriving DecidableEq, Repr

/-- The fields of a stream line that passed `StreamResultSchema`. -/
structure ResultData where
  subtype : String
  session_id : String
  is_error : Bool
  duration_ms : Nat
  duration_api_ms : Nat
  num_turns : Nat
  result : String
  total_cost_usd : Rat
  usage : Usage
  permission_denials : List String
deriving DecidableEq, Repr

/-- The response tuple that `sendMessage` resolves with
(`ClaudeResponseSchema` of claude-runner.ts). -/
structure ClaudeResponse where
  result : String
  session_id : String
  is_error : Bool
  duration_ms : Nat
  duration_api_ms : Nat
  num_turns : Nat
  total_cost_usd : Rat
  usage : Usage
  model_used : String
  permission_denials : List String
deriving DecidableEq, Repr

/-- `streamResultToClaudeResponse` of claude-session.ts. -/
def streamResultToClaudeResponse (r : ResultData) (modelUsed : String) :
    ClaudeResponse :=
  { result := r.result
    session_id := r.session_id
    is_error := r.is_error
    duration_ms := r.duration_ms
    duration_api_ms := r.duration_api_ms
    num_turns := r.num_turns
    total_cost_usd := r.total_cost_usd
    usage := r.usage
    model_used := modelUsed
    permission_denials := r.permission_denials }

/-- An NDJSON stdout line after `JSON.parse` + zod dispatch. `systemOther`
is a `system` line whose subtype is not `init` or that fails the init
schema; `resultMalformed` is a `result` line failing `StreamResultSchema`;
`unparseable` is a JSON decode failure. -/
inductive StreamLine
  | systemInit (session_id : String) (model : String)
  | systemOther
  | result (r : ResultData)
  | resultMalformed
  | assistant
  | user
  | rateLimitEvent
  | otherType (t : String)
  | unparseable
deriving DecidableEq, Repr

/-- Why a pending future was rejected. -/
inductive RejectReason
  | timeout
  | destroyed
  | released
  | processClosed
  | spawnFailed
deriving DecidableEq, Repr

/-- A resolver or rejecter of a pending message future firing.
`msgId` identifies the registered resolve/reject pair. -/
inductive Completion
  | resolved (msgId : Nat) (resp : ClaudeResponse)
  | rejected (msgId : Nat) (reason : RejectReason)
deriving DecidableEq, Repr

def Completion.msgId : Completion → Nat
  | .resolved m _ => m
  | .rejected m _ => m

/-- The message ids of a completion list. -/
def completionIds (cs : List Completion) : List Nat :=
  cs.map Completion.msgId

/-- The observable state of one `ClaudeSession` object. -/
structure ClaudeSession where
  state : SessionState
  claudeSessionId : Option String
  modelUsed : String
  lineBuffer : String
  maxBufferBytes : Nat
  /-- Identity of the registered `pendingResolve`/`pendingReject` pair,
  `none` when both fields are null. -/
  pendingId : Option Nat
  /-- Whether `messageTimeout` holds a live timer (`clearTimeout` disarms). -/
  timerArmed : Bool
  /-- Whether an init waiter (`initResolve`/`initReject`) is registered. -/
  initWaiter : Bool
  /-- Fresh-name supply for message-future identities. -/
  nextMsgId : Nat
  /-- Whether SIGTERM/SIGKILL has been sent to the process group. -/
  procKilled : Bool
  /-- Whether `release()` removed all stream listeners. -/
  listenersDetached : Bool
  /-- Whether `release()` closed stdin. -/
  stdinClosed : Bool
deriving DecidableEq, Repr

/-- The state installed by the constructor of `ClaudeSession`. -/
def newSession (maxBufferBytes : Nat) : ClaudeSession :=
  { state := .initializing
    claudeSessionId := none
    modelUsed := "unknown"
    lineBuffer := ""
    maxBufferBytes := maxBufferBytes
    pendingId := none
    timerArmed := false
    initWaiter := false
    nextMsgId := 0
    procKilled := false
    listenersDetached := false
    stdinClosed := false }

/-- Trim leading and trailing whitespace, modelling
`String.prototype.trim` (kernel-reducible replacement for `String.trim`). -/
def trimString (s : String) : String :=
  String.mk
    (((s.toList.dropWhile Char.isWhitespace).reverse.dropWhile
        Char.isWhitespace).reverse)

/-- Split a character buffer into the complete lines before each newline
and the trailing remainder, modelling the `indexOf("\n")`/`slice` loop of
`handleStdoutData`. -/
def splitNl : List Char → List (List Char) × List Char
  | [] => ([], [])
  | c :: rest =>
      let r := splitNl rest
      if c = '\n' then ([] :: r.1, r.2)
      else
        match r.1 with
        | [] => ([], c :: r.2)
        | l :: ls => ((c :: l) :: ls, r.2)

namespace ClaudeSession

/-- `rejectPending`: clear the timer, then fire the saved rejecter if one
is registered and null both fields. -/
def rejectPending (s : ClaudeSession) (reason : RejectReason) :
    ClaudeSession × List Completion :=
  let s1 := { s with timerArmed := false }
  match s1.pendingId with
  | some m => ({ s1 with pendingId := none }, [.rejected m reason])
  | none => (s1, [])

/-- `resolveInitError`: fire the saved init rejecter if registered.
The init future is tracked only as a flag; its completion is not a
message completion. -/
def resolveInitError (s : ClaudeSession) : ClaudeSession :=
  { s with initWaiter := false }

/-- Outcome of a `sendMessage` call as seen by the caller. -/
inductive SendOutcome
  | deadError
  | busyError
  | accepted (msgId : Nat)
deriving DecidableEq, Repr

/-- `sendMessage` (claude-session.ts lines 201–229): refuse when dead,
refuse when processing, otherwise register the pending pair, move to
`processing` and arm the single message timer. -/
def sendMessage (s : ClaudeSession) : ClaudeSession × SendOutcome :=
  if s.state = .dead then (s, .deadError)
  else if s.state = .processing then (s, .busyError)
  else
    ({ s with
        pendingId := some s.nextMsgId
        nextMsgId := s.nextMsgId + 1
        state := .processing
        timerArmed := true }, .accepted s.nextMsgId)

/-- The body of the `setTimeout` callback of `sendMessage`: runs only when
the timer is still armed; returns the state to `idle`, does not kill the
process, and rejects the saved pending rejecter with `timeout`. -/
def timeoutFire (s : ClaudeSession) : ClaudeSession × List Completion :=
  if s.timerArmed then
    let s1 := { s with timerArmed := false, state := SessionState.idle }
    match s1.pendingId with
    | some m => ({ s1 with pendingId := none }, [.rejected m .timeout])
    | none => (s1, [])
  else (s, [])

/-- `processLine` (claude-session.ts lines 302–356): dispatch a parsed
NDJSON line by type. `system`+`init` records the session id and model and
sets the state to `idle` (resolving init waiters); `result` clears the
timer, sets the state to `idle` and resolves the pending future when one
is registered, otherwise silently consumes the line; every other type is
ignored. -/
def processLine (s : ClaudeSession) (l : StreamLine) :
    ClaudeSession × List Completion :=
  match l with
  | .systemInit sid model =>
      ({ s with
          claudeSessionId := some sid
          modelUsed := model
          state := SessionState.idle
          initWaiter := false }, [])
  | .result r =>
      let s1 := { s with timerArmed := false, state := SessionState.idle }
      match s1.pendingId with
      | some m =>
          ({ s1 with pendingId := none },
            [.resolved m (streamResultToClaudeResponse r s.modelUsed)])
      | none => (s1, [])
  | _ => (s, [])

/-- `destroy` (claude-session.ts lines 232–244): no-op when already dead;
otherwise move to `dead`, clear the timer, reject the pending and init
futures, and signal the process (SIGTERM, SIGKILL fallback). -/
def destroy (s : ClaudeSession) : ClaudeSession × List Completion :=
  if s.state = .dead then (s, [])
  else
    let s1 := { s with state := SessionState.dead, timerArmed := false }
    let (s2, cs) := rejectPending s1 .destroyed
    let s3 := resolveInitError s2
    ({ s3 with procKilled := true }, cs)

/-- `release` (claude-session.ts lines 252–274): no-op when already dead;
otherwise move to `dead`, reject pending futures with released, detach
all stream listeners, close stdin and unref the child (not killed). -/
def release (s : ClaudeSession) : ClaudeSession × List Completion :=
  if s.state = .dead then (s, [])
  else
    let s1 := { s with state := SessionState.dead, timerArmed := false }
    let (s2, cs) := rejectPending s1 .released
    let s3 := resolveInitError s2
    ({ s3 with listenersDetached := true, stdinClosed := true }, cs)

/-- The `close` event handler of the child process: returns immediately
when the state is already `dead`, otherwise moves to `dead` and rejects
the pending and init futures. -/
def processClose (s : ClaudeSession) : ClaudeSession × List Completion :=
  if s.state = .dead then (s, [])
  else
    let s1 := { s with state := SessionState.dead }
    let (s2, cs) := rejectPending s1 .processClosed
    (resolveInitError s2, cs)

/-- The `error` event handler of the child process (spawn failure): moves
to `dead` and rejects the pending and init futures; the source performs no
already-dead check here. -/
def spawnError (s : ClaudeSession) : ClaudeSession × List Completion :=
  let s1 := { s with state := SessionState.dead }
  let (s2, cs) := rejectPending s1 .spawnFailed
  (resolveInitError s2, cs)

/-- The body of the NDJSON while loop of `handleStdoutData`: process each
complete line in order, trimming and skipping empty lines.
`trimString` models `String.prototype.trim`. -/
def processLines (parse : String → StreamLine) :
    ClaudeSession → List String → ClaudeSession × List Completion
  | s, [] => (s, [])
  | s, l :: rest =>
      if (trimString l).length > 0 then
        let r1 := processLine s (parse (trimString l))
        let r2 := processLines parse r1.1 rest
        (r2.1, r1.2 ++ r2.2)
      else processLines parse s rest

/-- `handleStdoutData` (claude-session.ts lines 280–300): append the chunk
to the line buffer; destroy the session when the buffer exceeds the byte
limit; otherwise split off and process every complete line, keeping the
remainder after the last newline buffered. -/
def handleStdoutData (parse : String → StreamLine) (s : ClaudeSession)
    (chunk : String) : ClaudeSession × List Completion :=
  if (s.lineBuffer ++ chunk).length > s.maxBufferBytes then
    destroy { s with lineBuffer := s.lineBuffer ++ chunk }
  else
    processLines parse
      { s with
          lineBuffer :=
            String.mk (splitNl (s.lineBuffer ++ chunk).toList).2 }
      ((splitNl (s.lineBuffer ++ chunk).toList).1.map String.mk)

end ClaudeSession

-- ===========================================================================
-- Session event traces
-- ===========================================================================

/-- The external events one `ClaudeSession` reacts to. -/
inductive SessionEvent
  | send
  | timerFires
  | stdout (chunk : String)
  | procClose
  | spawnErr
  | destroyCall
  | releaseCall
deriving DecidableEq, Repr

/-- Result of one event step. -/
structure StepOut where
  next : ClaudeSession
  completions : List Completion
  sendOutcome : Option ClaudeSession.SendOutcome
deriving Repr

/-- One event step of a session. Stream events (`stdout`, `procClose`,
`spawnErr`) are not delivered once `release()` removed the listeners. -/
def sessionStep (parse : String → StreamLine) (s : ClaudeSession) :
    SessionEvent → StepOut
  | .send =>
      let r := ClaudeSession.sendMessage s
      ⟨r.1, [], some r.2⟩
  | .timerFires =>
      let r := ClaudeSession.timeoutFire s
      ⟨r.1, r.2, none⟩
  | .stdout chunk =>
      if s.listenersDetached then ⟨s, [], none⟩
      else
        let r := ClaudeSession.handleStdoutData parse s chunk
        ⟨r.1, r.2, none⟩
  | .procClose =>
      if s.listenersDetached then ⟨s, [], none⟩
      else
        let r := ClaudeSession.processClose s
        ⟨r.1, r.2, none⟩
  | .spawnErr =>
      if s.listenersDetached then ⟨s, [], none⟩
      else
        let r := ClaudeSession.spawnError s
        ⟨r.1, r.2, none⟩
  | .destroyCall =>
      let r := ClaudeSession.destroy s
      ⟨r.1, r.2, none⟩
  | .releaseCall =>
      let r := ClaudeSession.release s
      ⟨r.1, r.2, none⟩

/-- Run a list of events, collecting every completion fired. -/
def sessionRun (parse : String → StreamLine) (s : ClaudeSession) :
    List SessionEvent → ClaudeSession × List Completion
  | [] => (s, [])
  | e :: rest =>
      let r := sessionStep parse s e
      let r2 := sessionRun parse r.next rest
      (r2.1, r.completions ++ r2.2)

-- ===========================================================================
-- Concrete demo inputs for witnesses and counterexamples
-- ===========================================================================

/-- A concrete result frame used by witnesses. -/
def demoResult : ResultData :=
  { subtype := "success"
    session_id := "sess-1"
    is_error := false
    duration_ms := 120
    duration_api_ms := 100
    num_turns := 1
    result := "4"
    total_cost_usd := 1/100
    usage := ⟨10, 5, 0, 0⟩
    permission_denials := [] }

/-- A concrete parse oracle: the constant line `initline` parses to the
init frame, `resultline` to the demo result frame, anything else fails
JSON decoding. -/
def demoParse (l : String) : StreamLine :=
  if l = "initline" then .systemInit "sess-1" "model-1"
  else if l = "resultline" then .result demoResult
  else .unparseable

example : (ClaudeSession.sendMessage (newSession 1000)).2 =
    ClaudeSession.SendOutcome.accepted 0 := by decide

-- ===========================================================================
-- ClaudeRunner (claude-runner.ts) — the context → session pool
-- ===========================================================================

/-- Association-list lookup keyed by string, modelling a JS `Map.get`. -/
def assocLookup {α : Type} (l : List (String × α)) (k : String) : Option α :=
  (l.find? (fun p => p.1 == k)).map Prod.snd

/-- Replace the value at an existing key (JS `Map.set` on a present key). -/
def assocUpdate {α : Type} (l : List (String × α)) (k : String) (v : α) :
    List (String × α) :=
  l.map (fun p => if p.1 == k then (k, v) else p)

/-- JS `Map.delete`. -/
def assocRemove {α : Type} (l : List (String × α)) (k : String) :
    List (String × α) :=
  l.filter (fun p => !(p.1 == k))

/-- JS `Map.set`: replace when present, append when absent. -/
def assocInsert {α : Type} (l : List (String × α)) (k : String) (v : α) :
    List (String × α) :=
  if l.any (fun p => p.1 == k) then assocUpdate l k v else l ++ [(k, v)]

/-- The pool state of `ClaudeRunner`: `sessions` maps contextId to the
live `ClaudeSession`, `taskToContext` routes cancellation. The spawn
configuration is reduced to the stdout byte limit handed to each new
session; the other spawn arguments do not influence pool behaviour. -/
structure ClaudeRunner where
  sessions : List (String × ClaudeSession)
  taskToContext : List (String × String)
  maxConcurrent : Nat
  maxBufferBytes : Nat
deriving DecidableEq, Repr

namespace ClaudeRunner

/-- `concurrentCount`: number of sessions in the pool map. -/
def concurrentCount (r : ClaudeRunner) : Nat :=
  r.sessions.length

/-- `isFull`: pool map size is at least `max_concurrent`. -/
def isFull (r : ClaudeRunner) : Bool :=
  decide (r.maxConcurrent ≤ r.sessions.length)

/-- Outcome of `ClaudeRunner.sendMessage` as seen by the caller. -/
inductive RunnerSendOutcome
  | capacityError
  | sessionSend (o : ClaudeSession.SendOutcome)
deriving DecidableEq, Repr

/-- `ClaudeRunner.sendMessage` (claude-runner.ts lines 94–148), up to the
point where the message is registered with the session: forget a dead
session, fail `capacity` when a new session would exceed the cap,
otherwise create or reuse the session, record the task mapping and
forward to `ClaudeSession.sendMessage`. -/
def sendMessage (r : ClaudeRunner) (contextId : String)
    (taskId : Option String) : ClaudeRunner × RunnerSendOutcome :=
  let found := assocLookup r.sessions contextId
  let cleaned :
      (List (String × ClaudeSession)) × Option ClaudeSession :=
    match found with
    | some s =>
        if s.state = SessionState.dead then
          (assocRemove r.sessions contextId, none)
        else (r.sessions, some s)
    | none => (r.sessions, none)
  let withTask (tc : List (String × String)) : List (String × String) :=
    match taskId with
    | some t => assocInsert tc t contextId
    | none => tc
  match cleaned.2 with
  | none =>
      if r.maxConcurrent ≤ cleaned.1.length then
        ({ r with sessions := cleaned.1 }, .capacityError)
      else
        let created := newSession r.maxBufferBytes
        let sr := ClaudeSession.sendMessage created
        ({ r with
            sessions := assocInsert cleaned.1 contextId sr.1
            taskToContext := withTask r.taskToContext }, .sessionSend sr.2)
  | some s =>
      let sr := ClaudeSession.sendMessage s
      ({ r with
          sessions := assocUpdate cleaned.1 contextId sr.1
          taskToContext := withTask r.taskToContext }, .sessionSend sr.2)

/-- A stdout `data` event for the session of a context: the session
handles the chunk in place; the pool map itself is not touched. -/
def onStdout (parse : String → StreamLine) (r : ClaudeRunner)
    (contextId : String) (chunk : String) :
    ClaudeRunner × List Completion :=
  match assocLookup r.sessions contextId with
  | none => (r, [])
  | some s =>
      if s.listenersDetached then (r, [])
      else
        let sr := ClaudeSession.handleStdoutData parse s chunk
        ({ r with sessions := assocUpdate r.sessions contextId sr.1 }, sr.2)

/-- A child-process `close` event for the session of a context: the
session handler returns immediately when the state is already `dead`
(so `onDeath` does not fire and the pool entry stays); otherwise the
session dies and the installed death callback removes it from the map. -/
def onProcClose (r : ClaudeRunner) (contextId : String) :
    ClaudeRunner × List Completion :=
  match assocLookup r.sessions contextId with
  | none => (r, [])
  | some s =>
      if s.listenersDetached then (r, [])
      else if s.state = SessionState.dead then (r, [])
      else
        let sr := ClaudeSession.processClose s
        ({ r with sessions := assocRemove r.sessions contextId }, sr.2)

/-- `destroySession`: explicit termination; destroys the session and
removes the map entry. -/
def destroySession (r : ClaudeRunner) (contextId : String) :
    ClaudeRunner × List Completion :=
  match assocLookup r.sessions contextId with
  | none => (r, [])
  | some s =>
      let sr := ClaudeSession.destroy s
      ({ r with sessions := assocRemove r.sessions contextId }, sr.2)

end ClaudeRunner

-- ===========================================================================
-- Auth model (auth/middleware.ts, auth/user.ts)
-- ===========================================================================

/-- The `type` tag of an `AuthContext` ("master" | "jwt" | "ephemeral" |
"none"). -/
inductive AuthType
  | master
  | jwt
  | ephemeral
  | noAuth
deriving DecidableEq, Repr

/-- `AuthContext` of auth/middleware.ts. -/
structure AuthContext where
  type : AuthType
  clientName : String
  scopes : List String
  budgetDailyUsd : Option Rat
  rateLimitRpm : Option Nat
  tokenId : Option String
deriving DecidableEq, Repr

/-- The A2A SDK user attached to a request: `AuthenticatedUser` wraps an
`AuthContext`; `UnauthenticatedUser` is everything else. -/
inductive CallUser
  | authenticated (authContext : AuthContext)
  | unauthenticated
deriving DecidableEq, Repr

/-- `AuthenticatedUser.userName` returns the auth context's client name. -/
def CallUser.userName : CallUser → Option String
  | .authenticated a => some a.clientName
  | .unauthenticated => none

/-- `ServerCallContext` as the task store sees it: it may carry a user. -/
structure ServerCallContext where
  user : Option CallUser
deriving DecidableEq, Repr

-- ===========================================================================
-- SessionStore (services/session-store.ts) — recovery path
-- ===========================================================================

/-- `SessionMetadata` of services/session-store.ts. -/
structure SessionMetadata where
  sessionId : String
  agentName : String
  clientName : String
  contextId : String
  taskId : String
  createdAt : Nat
  lastAccessedAt : Nat
  totalCostUsd : Rat
  messageCount : Nat
  processAlive : Bool
deriving DecidableEq, Repr

/-- A persisted `sessions` table row. -/
structure SessionRow where
  session_id : String
  agent_name : String
  client_name : String
  context_id : String
  task_id : String
  created_at : Nat
  last_accessed_at : Nat
  total_cost_usd : Rat
  message_count : Nat
  process_alive : Bool
  last_pid : Option Nat
deriving DecidableEq, Repr

namespace SessionStore

/-- The per-row body of `loadFromDb`: rebuild the in-memory metadata with
`processAlive := false` — processes do not survive restart. -/
def rowToRecoveredSession (row : SessionRow) : SessionMetadata :=
  { sessionId := row.session_id
    agentName := row.agent_name
    clientName := row.client_name
    contextId := row.context_id
    taskId := row.task_id
    createdAt := row.created_at
    lastAccessedAt := row.last_accessed_at
    totalCostUsd := row.total_cost_usd
    messageCount := row.message_count
    processAlive := false }

/-- `loadFromDb` (session-store.ts lines 419–446): recover every
persisted row into the in-memory indices. -/
def loadFromDb (rows : List SessionRow) : List SessionMetadata :=
  rows.map rowToRecoveredSession

end SessionStore

-- ===========================================================================
-- Agent executor (agent-executor.ts)
-- ===========================================================================

/-- A Claude CLI content block as built by `convertPartsToMessage`
(the base64 `source` object is flattened to its media type and data). -/
inductive ContentBlock
  | text (text : String)
  | image (media_type : String) (data : String)
  | document (media_type : String) (data : String)
deriving DecidableEq, Repr

/-- An A2A `FilePart` payload: either inline base64 bytes or a URI. -/
inductive FilePayload
  | withBytes (mimeType : Option String) (name : Option String)
      (bytes : String)
  | withUri (uri : String) (mimeType : Option String) (name : Option String)
deriving DecidableEq, Repr

/-- An A2A message part. For a `data` part the model carries the
pretty-printed JSON rendering that `JSON.stringify(part.data, null, 2)`
produces. -/
inductive A2APart
  | text (text : String)
  | file (file : FilePayload)
  | dataPart (pretty : String)
deriving DecidableEq, Repr

/-- The image MIME whitelist `IMAGE_MIME_TYPES`. -/
def IMAGE_MIME_TYPES : List String :=
  ["image/jpeg", "image/png", "image/gif", "image/webp"]

/-- The multimodal branch of `convertPartsToMessage`: build the content
block sequence, preserving JS truthiness on the optional `name` and
`mimeType` strings. -/
def convertBlocks : List A2APart → List ContentBlock
  | [] => []
  | .text t :: rest => .text t :: convertBlocks rest
  | .file (.withBytes mimeType name bytes) :: rest =>
      let mime := mimeType.getD "application/octet-stream"
      let blk : ContentBlock :=
        if IMAGE_MIME_TYPES.contains mime then .image mime bytes
        else .document mime bytes
      let nameBlocks : List ContentBlock :=
        match name with
        | some n => if n == "" then [] else [.text ("[File: " ++ n ++ "]")]
        | none => []
      blk :: (nameBlocks ++ convertBlocks rest)
  | .file (.withUri uri mimeType name) :: rest =>
      let label := name.getD uri
      let mimeHint :=
        match mimeType with
        | some m => if m == "" then "" else " (" ++ m ++ ")"
        | none => ""
      .text ("[Referenced file: " ++ label ++ mimeHint ++ " — URI: " ++
          uri ++ "] (URI file download not supported; the file was not included.)")
        :: convertBlocks rest
  | .dataPart pretty :: rest => .text pretty :: convertBlocks rest

/-- Result of `convertPartsToMessage`. -/
structure ConvertedMessage where
  message : String ⊕ List ContentBlock
  hasNonText : Bool
deriving DecidableEq, Repr

/-- `convertPartsToMessage` (agent-executor.ts lines 40–95): a plain
joined string when every part is text, otherwise a content block list. -/
def convertPartsToMessage (parts : List A2APart) : ConvertedMessage :=
  let hasNonText := parts.any (fun p =>
    match p with
    | .text _ => false
    | _ => true)
  if hasNonText then ⟨Sum.inr (convertBlocks parts), true⟩
  else
    ⟨Sum.inl (String.intercalate "\n" (parts.filterMap (fun p =>
        match p with
        | .text t => some t
        | _ => none))), false⟩

/-- The message metadata keys the executor reads. -/
structure MessageMeta where
  agent : Option String
  scopes : Option (List String)
  clientName : Option String
deriving DecidableEq, Repr

/-- The incoming A2A user message as the executor sees it. -/
structure UserMessage where
  parts : List A2APart
  metadata : Option MessageMeta
deriving DecidableEq, Repr

/-- The per-agent configuration fields the request pipeline consults;
the spawn-related fields (model, settings file, permission mode, allowed
tools, cost cap, system-prompt suffix, work dir) only shape CLI
arguments and are not represented. -/
structure AgentConfig where
  enabled : Bool
  required_scopes : List String
deriving DecidableEq, Repr

/-- The server configuration slice the executor consults:
`config.agents` as an ordered key/value listing (`Object.entries`). -/
structure ServerConfig where
  agents : List (String × AgentConfig)
deriving DecidableEq, Repr

/-- `this.config.agents[name]`. -/
def lookupAgent (cfg : ServerConfig) (name : String) : Option AgentConfig :=
  assocLookup cfg.agents name

/-- The fallback loop of `resolveAgentName`: the first enabled agent in
configuration order. -/
def firstEnabledAgent (cfg : ServerConfig) : Option String :=
  (cfg.agents.find? (fun p => p.2.enabled)).map Prod.fst

namespace ClaudeAgentExecutor

/-- `resolveAgentName` (agent-executor.ts lines 316–325): a truthy
metadata agent that exists in the configuration wins; otherwise the
first enabled agent; otherwise the literal "general". -/
def resolveAgentName (cfg : ServerConfig) (message : UserMessage) :
    String :=
  let metaAgent := message.metadata.bind MessageMeta.agent
  match metaAgent with
  | some a =>
      if a ≠ "" ∧ (lookupAgent cfg a).isSome then a
      else (firstEnabledAgent cfg).getD "general"
  | none => (firstEnabledAgent cfg).getD "general"

/-- `resolveScopes` (agent-executor.ts lines 298–314): a scopes array in
the message metadata wins; otherwise the authenticated user's granted
scopes; otherwise the empty (deny) set. -/
def resolveScopes (requestUser : Option CallUser) (message : UserMessage) :
    List String :=
  match message.metadata.bind MessageMeta.scopes with
  | some l => l
  | none =>
      match requestUser with
      | some (.authenticated a) => a.scopes
      | _ => []

/-- The client-name resolution of `execute`: the authenticated user's
client name, else the metadata `clientName`, else "anonymous". -/
def executeClientName (requestUser : Option CallUser)
    (message : UserMessage) : String :=
  match requestUser with
  | some (.authenticated a) => a.clientName
  | _ => (message.metadata.bind MessageMeta.clientName).getD "anonymous"

/-- The per-client budget override of `execute`: the authenticated
user's `budgetDailyUsd` claim. -/
def executeBudgetOverride (requestUser : Option CallUser) : Option Rat :=
  match requestUser with
  | some (.authenticated a) => a.budgetDailyUsd
  | _ => none

/-- The `isEmpty` test of `execute`: an all-whitespace string or an
empty block list. -/
def executeIsEmpty (m : String ⊕ List ContentBlock) : Bool :=
  match m with
  | .inl s => trimString s == ""
  | .inr blocks => blocks.length == 0

/-- The scope-denial condition of `execute` (lines 147–159): the agent
requires scopes and the resolved scope list contains neither the
wildcard nor any required name. -/
def scopeDenied (agentConfig : AgentConfig) (requestUser : Option CallUser)
    (message : UserMessage) : Bool :=
  let userScopes := resolveScopes requestUser message
  decide (0 < agentConfig.required_scopes.length) &&
    !(userScopes.contains "*") &&
    !(agentConfig.required_scopes.any (fun s => userScopes.contains s))

/-- The environment `execute` consults: the session-store row for this
contextId, the persisted PID, the OS signal-0 liveness oracle and the
budget tracker's check. -/
structure ExecEnv where
  existingSession : Option SessionMetadata
  lastPid : Option Nat
  pidAlive : Nat → Bool
  budgetCheck : String → Option Rat → Option String

/-- The live-orphan test of `execute` (lines 192–205): a session row
with a dead process whose truthy stored PID is still alive at the OS
level yields that PID. -/
def execOrphanPid (env : ExecEnv) (es : SessionMetadata) : Option Nat :=
  if !es.processAlive then
    match env.lastPid with
    | some p => if p ≠ 0 ∧ env.pidAlive p then some p else none
    | none => none
  else none

/-- How `execute` replies (or proceeds to dispatch). -/
inductive ExecOutcome
  | emptyMessage
  | agentNotFoundOrDisabled (agent : String)
  | insufficientScope (agent : String)
  | budgetRejected (errText : String)
  | agentMismatch (existingAgent : String) (agent : String)
  | orphanStillRunning (orphan_pid : Nat)
  | dispatched (agent : String) (resumeSessionId : Option String)
      (message : String ⊕ List ContentBlock)
deriving DecidableEq, Repr

/-- `execute` (agent-executor.ts lines 118–215), up to the dispatch to
the runner: empty check, agent resolution and enabled check, scope
check, budget check, agent-context binding check, live-orphan check,
then dispatch with the existing session id as resume hint. -/
def execute (cfg : ServerConfig) (env : ExecEnv)
    (requestUser : Option CallUser) (message : UserMessage) : ExecOutcome :=
  let conv := convertPartsToMessage message.parts
  if executeIsEmpty conv.message then .emptyMessage
  else
    let agentName := resolveAgentName cfg message
    match lookupAgent cfg agentName with
    | none => .agentNotFoundOrDisabled agentName
    | some agentConfig =>
        if !agentConfig.enabled then .agentNotFoundOrDisabled agentName
        else if scopeDenied agentConfig requestUser message then
          .insufficientScope agentName
        else
          let clientName := executeClientName requestUser message
          match env.budgetCheck clientName
              (executeBudgetOverride requestUser) with
          | some errText => .budgetRejected errText
          | none =>
              match env.existingSession with
              | some existingSession =>
                  if existingSession.agentName ≠ agentName then
                    .agentMismatch existingSession.agentName agentName
                  else
                    match execOrphanPid env existingSession with
                    | some p => .orphanStillRunning p
                    | none =>
                        .dispatched agentName (some existingSession.sessionId)
                          conv.message
              | none => .dispatched agentName none conv.message

end ClaudeAgentExecutor

-- ===========================================================================
-- SqliteTaskStore (services/task-store.ts)
-- ===========================================================================

/-- An A2A task as the store serializes it: the complex fields (status
message, artifacts, history, metadata) are carried as their serialized
JSON blob, matching the columns they are written to. -/
structure A2ATask where
  id : String
  contextId : String
  statusState : String
  statusTimestamp : Option String
  statusMessageJson : Option String
  artifactsJson : Option String
  historyJson : Option String
  metadataJson : Option String
deriving DecidableEq, Repr

/-- A row of the `tasks` table. `updated_at` models `datetime('now')`
as a caller-supplied clock value. -/
structure TaskRow where
  id : String
  context_id : String
  status_state : String
  status_timestamp : Option String
  status_message_json : Option String
  artifacts_json : Option String
  history_json : Option String
  metadata_json : Option String
  client_name : Option String
  updated_at : Nat
deriving DecidableEq, Repr

namespace SqliteTaskStore

/-- `resolveClientName` (task-store.ts lines 90–96): null for internal
calls or non-`AuthenticatedUser` users. -/
def resolveClientName (context : Option ServerCallContext) :
    Option String :=
  match context with
  | none => none
  | some c =>
      match c.user with
      | some (.authenticated a) => some a.clientName
      | _ => none

/-- JS truthiness of the stored owner: `!taskOwner` is true for null and
for the empty string. -/
def ownerFalsy : Option String → Bool
  | none => true
  | some o => o == ""

/-- `canAccessTask` (task-store.ts lines 106–126). -/
def canAccessTask (context : Option ServerCallContext)
    (taskOwner : Option String) : Bool :=
  match context with
  | none => true
  | some c =>
      match c.user with
      | none => false
      | some (.authenticated a) =>
          if a.type = AuthType.master then true
          else if ownerFalsy taskOwner then true
          else some a.clientName == taskOwner
      | some .unauthenticated => false

/-- Reconstruction of the task from its row (load lines 68–80). -/
def rowToTask (row : TaskRow) : A2ATask :=
  { id := row.id
    contextId := row.context_id
    statusState := row.status_state
    statusTimestamp := row.status_timestamp
    statusMessageJson := row.status_message_json
    artifactsJson := row.artifacts_json
    historyJson := row.history_json
    metadataJson := row.metadata_json }

/-- `load` (task-store.ts lines 59–83): look the row up by id; a row the
caller may not access is reported exactly like a missing row. -/
def load (rows : List TaskRow) (taskId : String)
    (context : Option ServerCallContext) : Option A2ATask :=
  match rows.find? (fun r => r.id == taskId) with
  | none => none
  | some row =>
      if canAccessTask context row.client_name then some (rowToTask row)
      else none

/-- `save` (task-store.ts lines 24–57): upsert by id. On INSERT the
caller's client name is stamped into `client_name`; the
`ON CONFLICT(id) DO UPDATE` clause rewrites every column from the
excluded row except `client_name` (and the primary key), plus a fresh
`updated_at`. -/
def save (rows : List TaskRow) (task : A2ATask)
    (context : Option ServerCallContext) (now : Nat) : List TaskRow :=
  let clientName := resolveClientName context
  if rows.any (fun r => r.id == task.id) then
    rows.map (fun r =>
      if r.id == task.id then
        { r with
            context_id := task.contextId
            status_state := task.statusState
            status_timestamp := task.statusTimestamp
            status_message_json := task.statusMessageJson
            artifacts_json := task.artifactsJson
            history_json := task.historyJson
            metadata_json := task.metadataJson
            updated_at := now }
      else r)
  else
    rows ++ [{ id := task.id
               context_id := task.contextId
               status_state := task.statusState
               status_timestamp := task.statusTimestamp
               status_message_json := task.statusMessageJson
               artifacts_json := task.artifactsJson
               history_json := task.historyJson
               metadata_json := task.metadataJson
               client_name := clientName
               updated_at := now }]

end SqliteTaskStore

-- ===========================================================================
-- Further concrete demonstration inputs
-- ===========================================================================

/-- A session with message 0 in flight (the state reached from a fresh
session by one accepted `sendMessage`). -/
def demoProcessing : ClaudeSession :=
  { newSession 1000 with
      state := SessionState.processing
      pendingId := some 0
      nextMsgId := 1
      timerArmed := true }

/-- A task row owned by alice. -/
def demoTaskRow : TaskRow :=
  { id := "t1"
    context_id := "ctx-1"
    status_state := "working"
    status_timestamp := none
    status_message_json := none
    artifacts_json := none
    history_json := none
    metadata_json := none
    client_name := some "alice"
    updated_at := 5 }

/-- A task row whose stored owner is the empty string (non-null). -/
def demoEmptyOwnerRow : TaskRow :=
  { demoTaskRow with client_name := some "" }

/-- A JWT auth context for client bob. -/
def demoAuthBob : AuthContext :=
  { type := AuthType.jwt
    clientName := "bob"
    scopes := []
    budgetDailyUsd := none
    rateLimitRpm := none
    tokenId := some "jti-1" }

/-- The call context of a request authenticated as bob. -/
def demoCtxBob : ServerCallContext :=
  { user := some (CallUser.authenticated demoAuthBob) }

/-- An updated shape for task t1. -/
def demoTaskUpdate : A2ATask :=
  { id := "t1"
    contextId := "ctx-1"
    statusState := "completed"
    statusTimestamp := some "2026-10-11T00:00:00Z"
    statusMessageJson := some "msg-json"
    artifactsJson := none
    historyJson := none
    metadataJson := none }

/-- An enabled agent with no required scopes. -/
def demoAgentOpen : AgentConfig := { enabled := true, required_scopes := [] }

/-- An enabled agent requiring the scope agent:general. -/
def demoAgentScoped : AgentConfig :=
  { enabled := true, required_scopes := ["agent:general"] }

/-- A configuration with the single enabled agent "general". -/
def demoCfg : ServerConfig := { agents := [("general", demoAgentOpen)] }

/-- A configuration whose "general" agent requires agent:general. -/
def demoCfgScoped : ServerConfig :=
  { agents := [("general", demoAgentScoped)] }

/-- An executor environment with no stored session, no PID, no live
processes and a passing budget check. -/
def demoEnv : ClaudeAgentExecutor.ExecEnv :=
  { existingSession := none
    lastPid := none
    pidAlive := fun _ => false
    budgetCheck := fun _ _ => none }

/-- A plain one-part text message with no metadata. -/
def demoMsgHello : UserMessage :=
  { parts := [A2APart.text "Hello"], metadata := none }

/-- The same message addressed to a nonexistent agent. -/
def demoMsgUnknownAgent : UserMessage :=
  { parts := [A2APart.text "Hello"]
    metadata := some
      { agent := some "nonexistent"
        scopes := none
        clientName := none } }

/-- The same message smuggling scopes through its metadata. -/
def demoMsgScopeMeta : UserMessage :=
  { parts := [A2APart.text "Hello"]
    metadata := some
      { agent := none
        scopes := some ["agent:general"]
        clientName := none } }

/-- Stored session metadata binding ctx-1 to agent "general". -/
def demoSessionMeta : SessionMetadata :=
  { sessionId := "sess-1"
    agentName := "general"
    clientName := "alice"
    contextId := "ctx-1"
    taskId := "t1"
    createdAt := 0
    lastAccessedAt := 0
    totalCostUsd := 0
    messageCount := 1
    processAlive := true }

/-- A configuration with two enabled agents, "general" then "code". -/
def demoCfg2 : ServerConfig :=
  { agents := [("general", demoAgentOpen), ("code", demoAgentOpen)] }

/-- A message addressed to agent "code". -/
def demoMsgCode : UserMessage :=
  { parts := [A2APart.text "Hello"]
    metadata := some
      { agent := some "code"
        scopes := none
        clientName := none } }

/-- An environment whose contextId already has a live session bound to
agent "general". -/
def demoEnvSession : ClaudeAgentExecutor.ExecEnv :=
  { existingSession := some demoSessionMeta
    lastPid := none
    pidAlive := fun _ => false
    budgetCheck := fun _ _ => none }

/-- An environment with a session row whose process is marked dead but
whose stored PID 424 is still alive at the OS level. -/
def demoEnvOrphan : ClaudeAgentExecutor.ExecEnv :=
  { existingSession := some { demoSessionMeta with processAlive := false }
    lastPid := some 424
    pidAlive := fun q => q == 424
    budgetCheck := fun _ _ => none }

/-- A one-slot pool holding a processing session for ctx-a whose stdout
byte limit is 8. -/
def demoRunner : ClaudeRunner :=
  { sessions := [("ctx-a",
      { newSession 8 with
          state := SessionState.processing
          pendingId := some 0
          nextMsgId := 1
          timerArmed := true })]
    taskToContext := []
    maxConcurrent := 1
    maxBufferBytes := 8 }

-- ===========================================================================
-- Pending-future bookkeeping invariant
-- ===========================================================================

/-- Bookkeeping invariant tying a session to the list of message ids whose
future has already fired: fired ids are pairwise distinct and below the
fresh-name supply, and a registered pending id is fresh and has not
fired. -/
def PendInv (s : ClaudeSession) (done : List Nat) : Prop :=
  done.Nodup ∧ (∀ m ∈ done, m < s.nextMsgId) ∧
    ∀ m, s.pendingId = some m → m < s.nextMsgId ∧ m ∉ done

theorem pendInv_congr {s t : ClaudeSession} {done : List Nat}
    (hp : t.pendingId = s.pendingId) (hn : t.nextMsgId = s.nextMsgId)
    (h : PendInv s done) : PendInv t done := by
  obtain ⟨h1, h2, h3⟩ := h
  refine ⟨h1, ?_, ?_⟩
  · intro m hm
    rw [hn]
    exact h2 m hm
  · intro m hpm
    rw [hn]
    exact h3 m (by rw [← hp]; exact hpm)

/-- Completing the currently pending id (and clearing it) preserves the
invariant. -/
theorem pendInv_complete {s t : ClaudeSession} {done : List Nat} {m : Nat}
    (h : PendInv s done) (hp : s.pendingId = some m)
    (ht : t.pendingId = none) (hn : t.nextMsgId = s.nextMsgId) :
    PendInv t (done ++ [m]) := by
  obtain ⟨h1, h2, h3⟩ := h
  obtain ⟨hmlt, hmnot⟩ := h3 m hp
  refine ⟨?_, ?_, ?_⟩
  · rw [List.nodup_append]
    exact ⟨h1, List.nodup_singleton m, by
      intro a ha hb
      rw [List.mem_singleton] at hb
      exact hmnot (hb ▸ ha)⟩
  · intro x hx
    rw [hn]
    rcases List.mem_append.1 hx with hx | hx
    · exact h2 x hx
    · rw [List.mem_singleton] at hx
      exact hx ▸ hmlt
  · intro x hx
    rw [ht] at hx
    exact absurd hx (by simp)

theorem pendInv_rejectPending {s : ClaudeSession} {done : List Nat}
    (h : PendInv s done) (rr : RejectReason) :
    PendInv (ClaudeSession.rejectPending s rr).1
      (done ++ completionIds (ClaudeSession.rejectPending s rr).2) := by
  unfold ClaudeSession.rejectPending
  cases hp : s.pendingId with
  | none =>
      simp only [hp, completionIds, List.map_nil, List.append_nil]
      exact pendInv_congr (by simp [hp]) (by simp) h
  | some m =>
      simp only [hp, completionIds, List.map_cons, List.map_nil,
        Completion.msgId]
      exact pendInv_complete h hp rfl rfl

theorem pendInv_sendMessage {s : ClaudeSession} {done : List Nat}
    (h : PendInv s done) :
    PendInv (ClaudeSession.sendMessage s).1 done := by
  unfold ClaudeSession.sendMessage
  by_cases hd : s.state = SessionState.dead
  · simpa [hd] using h
  · by_cases hb : s.state = SessionState.processing
    · simpa [hd, hb] using h
    · obtain ⟨h1, h2, h3⟩ := h
      simp only [hd, hb, if_false]
      refine ⟨h1, ?_, ?_⟩
      · intro m hm
        exact Nat.lt_succ_of_lt (h2 m hm)
      · intro m hpm
        simp only [Option.some.injEq] at hpm
        subst hpm
        exact ⟨Nat.lt_succ_self _, fun hmem =>
          absurd (h2 _ hmem) (lt_irrefl _)⟩

theorem pendInv_timeoutFire {s : ClaudeSession} {done : List Nat}
    (h : PendInv s done) :
    PendInv (ClaudeSession.timeoutFire s).1
      (done ++ completionIds (ClaudeSession.timeoutFire s).2) := by
  unfold ClaudeSession.timeoutFire
  by_cases ha : s.timerArmed
  · cases hp : s.pendingId with
    | none =>
        simp only [ha, if_true, hp, completionIds, List.map_nil,
          List.append_nil]
        exact pendInv_congr (by simp [hp]) (by simp) h
    | some m =>
        simp only [ha, if_true, hp, completionIds, List.map_cons,
          List.map_nil, Completion.msgId]
        exact pendInv_complete h hp rfl rfl
  · simpa [ha, completionIds] using h

theorem pendInv_processLine {s : ClaudeSession} {done : List Nat}
    (h : PendInv s done) (l : StreamLine) :
    PendInv (ClaudeSession.processLine s l).1
      (done ++ completionIds (ClaudeSession.processLine s l).2) := by
  cases l with
  | systemInit sid model =>
      simp only [ClaudeSession.processLine, completionIds, List.map_nil,
        List.append_nil]
      exact pendInv_congr rfl rfl h
  | result r =>
      unfold ClaudeSession.processLine
      cases hp : s.pendingId with
      | none =>
          simp only [hp, completionIds, List.map_nil, List.append_nil]
          exact pendInv_congr (by simp [hp]) (by simp) h
      | some m =>
          simp only [hp, completionIds, List.map_cons, List.map_nil,
            Completion.msgId]
          exact pendInv_complete h hp rfl rfl
  | systemOther =>
      simpa [ClaudeSession.processLine, completionIds] using h
  | resultMalformed =>
      simpa [ClaudeSession.processLine, completionIds] using h
  | assistant =>
      simpa [ClaudeSession.processLine, completionIds] using h
  | user =>
      simpa [ClaudeSession.processLine, completionIds] using h
  | rateLimitEvent =>
      simpa [ClaudeSession.processLine, completionIds] using h
  | otherType t =>
      simpa [ClaudeSession.processLine, completionIds] using h
  | unparseable =>
      simpa [ClaudeSession.processLine, completionIds] using h

theorem pendInv_processLines (parse : String → StreamLine) :
    ∀ (ls : List String) (s : ClaudeSession) (done : List Nat),
      PendInv s done →
      PendInv (ClaudeSession.processLines parse s ls).1
        (done ++ completionIds (ClaudeSession.processLines parse s ls).2)
  | [], s, done, h => by
      simpa [ClaudeSession.processLines, completionIds] using h
  | l :: rest, s, done, h => by
      unfold ClaudeSession.processLines
      by_cases hl : (trimString l).length > 0
      · simp only [hl, if_true, completionIds, List.map_append,
          ← List.append_assoc]
        exact pendInv_processLines parse rest _ _
          (pendInv_processLine h (parse (trimString l)))
      · simp only [hl, if_false]
        exact pendInv_processLines parse rest s done h

theorem pendInv_destroy {s : ClaudeSession} {done : List Nat}
    (h : PendInv s done) :
    PendInv (ClaudeSession.destroy s).1
      (done ++ completionIds (ClaudeSession.destroy s).2) := by
  unfold ClaudeSession.destroy
  by_cases hd : s.state = SessionState.dead
  · simpa [hd, completionIds] using h
  · simp only [hd, if_false]
    have h0 : PendInv
        { s with state := SessionState.dead, timerArmed := false } done :=
      pendInv_congr rfl rfl h
    have h1 := pendInv_rejectPending h0 RejectReason.destroyed
    exact pendInv_congr rfl rfl h1

theorem pendInv_release {s : ClaudeSession} {done : List Nat}
    (h : PendInv s done) :
    PendInv (ClaudeSession.release s).1
      (done ++ completionIds (ClaudeSession.release s).2) := by
  unfold ClaudeSession.release
  by_cases hd : s.state = SessionState.dead
  · simpa [hd, completionIds] using h
  · simp only [hd, if_false]
    have h0 : PendInv
        { s with state := SessionState.dead, timerArmed := false } done :=
      pendInv_congr rfl rfl h
    have h1 := pendInv_rejectPending h0 RejectReason.released
    exact pendInv_congr rfl rfl h1

theorem pendInv_processClose {s : ClaudeSession} {done : List Nat}
    (h : PendInv s done) :
    PendInv (ClaudeSession.processClose s).1
      (done ++ completionIds (ClaudeSession.processClose s).2) := by
  unfold ClaudeSession.processClose
  by_cases hd : s.state = SessionState.dead
  · simpa [hd, completionIds] using h
  · simp only [hd, if_false]
    have h0 : PendInv { s with state := SessionState.dead } done :=
      pendInv_congr rfl rfl h
    have h1 := pendInv_rejectPending h0 RejectReason.processClosed
    exact pendInv_congr rfl rfl h1

theorem pendInv_spawnError {s : ClaudeSession} {done : List Nat}
    (h : PendInv s done) :
    PendInv (ClaudeSession.spawnError s).1
      (done ++ completionIds (ClaudeSession.spawnError s).2) := by
  unfold ClaudeSession.spawnError
  have h0 : PendInv { s with state := SessionState.dead } done :=
    pendInv_congr rfl rfl h
  have h1 := pendInv_rejectPending h0 RejectReason.spawnFailed
  exact pendInv_congr rfl rfl h1

theorem pendInv_handleStdoutData (parse : String → StreamLine)
    {s : ClaudeSession} {done : List Nat} (h : PendInv s done)
    (chunk : String) :
    PendInv (ClaudeSession.handleStdoutData parse s chunk).1
      (done ++
        completionIds (ClaudeSession.handleStdoutData parse s chunk).2) := by
  unfold ClaudeSession.handleStdoutData
  by_cases hb :
      (s.lineBuffer ++ chunk).length > s.maxBufferBytes
  · simp only [hb, if_true]
    exact pendInv_destroy (pendInv_congr rfl rfl h)
  · simp only [hb, if_false]
    exact pendInv_processLines parse _ _ done (pendInv_congr rfl rfl h)

theorem pendInv_sessionStep (parse : String → StreamLine)
    {s : ClaudeSession} {done : List Nat} (h : PendInv s done)
    (e : SessionEvent) :
    PendInv (sessionStep parse s e).next
      (done ++ completionIds (sessionStep parse s e).completions) := by
  cases e with
  | send =>
      simpa [sessionStep, completionIds] using pendInv_sendMessage h
  | timerFires =>
      simpa [sessionStep] using pendInv_timeoutFire h
  | stdout chunk =>
      by_cases hd : s.listenersDetached
      · simpa [sessionStep, hd, completionIds] using h
      · simpa [sessionStep, hd] using pendInv_handleStdoutData parse h chunk
  | procClose =>
      by_cases hd : s.listenersDetached
      · simpa [sessionStep, hd, completionIds] using h
      · simpa [sessionStep, hd] using pendInv_processClose h
  | spawnErr =>
      by_cases hd : s.listenersDetached
      · simpa [sessionStep, hd, completionIds] using h
      · simpa [sessionStep, hd] using pendInv_spawnError h
  | destroyCall =>
      simpa [sessionStep] using pendInv_destroy h
  | releaseCall =>
      simpa [sessionStep] using pendInv_release h

theorem pendInv_sessionRun (parse : String → StreamLine) :
    ∀ (evs : List SessionEvent) (s : ClaudeSession) (done : List Nat),
      PendInv s done →
      PendInv (sessionRun parse s evs).1
        (done ++ completionIds (sessionRun parse s evs).2)
  | [], s, done, h => by
      simpa [sessionRun, completionIds] using h
  | e :: rest, s, done, h => by
      unfold sessionRun
      simp only [completionIds, List.map_append, ← List.append_assoc]
      exact pendInv_sessionRun parse rest _ _ (pendInv_sessionStep parse h e)

/-- From a fresh session every trace fires pairwise-distinct message
futures. -/
theorem sessionRun_nodup (parse : String → StreamLine) (n : Nat)
    (evs : List SessionEvent) :
    (completionIds (sessionRun parse (newSession n) evs).2).Nodup := by
  have h0 : PendInv (newSession n) [] := by
    refine ⟨List.nodup_nil, ?_, ?_⟩
    · intro m hm
      exact absurd hm (by simp)
    · intro m hp
      exact absurd hp (by simp [newSession])
  have := pendInv_sessionRun parse evs (newSession n) [] h0
  simpa using this.1

-- ===========================================================================
-- State-transition lemmas for the session machine
-- ===========================================================================

theorem rejectPending_state (s : ClaudeSession) (rr : RejectReason) :
    (ClaudeSession.rejectPending s rr).1.state = s.state := by
  unfold ClaudeSession.rejectPending
  cases hp : s.pendingId <;> simp [hp]

theorem destroy_state_dead (s : ClaudeSession)
    (hd : s.state ≠ SessionState.dead) :
    (ClaudeSession.destroy s).1.state = SessionState.dead := by
  unfold ClaudeSession.destroy ClaudeSession.rejectPending
    ClaudeSession.resolveInitError
  simp only [hd, if_false]
  cases hp : s.pendingId <;> simp [hp]

theorem destroy_noop_of_dead (s : ClaudeSession)
    (hd : s.state = SessionState.dead) :
    ClaudeSession.destroy s = (s, []) := by
  unfold ClaudeSession.destroy
  simp [hd]

theorem release_noop_of_dead (s : ClaudeSession)
    (hd : s.state = SessionState.dead) :
    ClaudeSession.release s = (s, []) := by
  unfold ClaudeSession.release
  simp [hd]

theorem processLine_state (s : ClaudeSession) (l : StreamLine) :
    (ClaudeSession.processLine s l).1.state = s.state ∨
    (ClaudeSession.processLine s l).1.state = SessionState.idle := by
  cases l with
  | systemInit sid model => right; rfl
  | result r =>
      unfold ClaudeSession.processLine
      cases hp : s.pendingId <;> simp [hp]
  | systemOther => left; rfl
  | resultMalformed => left; rfl
  | assistant => left; rfl
  | user => left; rfl
  | rateLimitEvent => left; rfl
  | otherType t => left; rfl
  | unparseable => left; rfl

theorem processLines_state (parse : String → StreamLine) :
    ∀ (ls : List String) (s : ClaudeSession),
      (ClaudeSession.processLines parse s ls).1.state = s.state ∨
      (ClaudeSession.processLines parse s ls).1.state = SessionState.idle
  | [], s => by left; rfl
  | l :: rest, s => by
      unfold ClaudeSession.processLines
      by_cases hl : (trimString l).length > 0
      · simp only [hl, if_true]
        rcases processLines_state parse rest
            (ClaudeSession.processLine s (parse (trimString l))).1 with h | h
        · rw [h]
          exact processLine_state s (parse (trimString l))
        · right; exact h
      · simp only [hl, if_false]
        exact processLines_state parse rest s

theorem handleStdoutData_state (parse : String → StreamLine)
    (s : ClaudeSession) (chunk : String) :
    (ClaudeSession.handleStdoutData parse s chunk).1.state = s.state ∨
    (ClaudeSession.handleStdoutData parse s chunk).1.state =
      SessionState.idle ∨
    ((ClaudeSession.handleStdoutData parse s chunk).1.state =
        SessionState.dead ∧ s.state ≠ SessionState.dead) := by
  unfold ClaudeSession.handleStdoutData
  by_cases hb : (s.lineBuffer ++ chunk).length > s.maxBufferBytes
  · simp only [hb, if_true]
    by_cases hd :
        ({ s with lineBuffer := s.lineBuffer ++ chunk } :
          ClaudeSession).state = SessionState.dead
    · left
      rw [destroy_noop_of_dead _ hd]
    · right; right
      exact ⟨destroy_state_dead _ hd, hd⟩
  · simp only [hb, if_false]
    rcases processLines_state parse
        ((splitNl (s.lineBuffer ++ chunk).toList).1.map String.mk)
        { s with
            lineBuffer :=
              String.mk (splitNl (s.lineBuffer ++ chunk).toList).2 } with
      h | h
    · left; exact h
    · right; left; exact h

-- ===========================================================================
-- C1 — message serialization and pending-future completion
-- ===========================================================================

/-- C1 (amended): while the session is in the `processing` state a second
`sendMessage` is refused with session-busy and changes nothing; along any
event trace from a fresh session, each pending message's resolver or
rejecter fires at most once (never both); and a `sendMessage` issued
while the session is still `initializing` is accepted. The original
claim's guarantee that exactly one resolver/rejecter fires for every
pending message does not survive the initializing window: the init line
returns the state to `idle` while the first message is still pending, so
a second `sendMessage` in that window is accepted rather than refused
with session-busy, and it overwrites the pending pair so that the first
message's future never fires. -/
theorem C1_serialization_amended :
    (∀ s : ClaudeSession, s.state = SessionState.processing →
        ClaudeSession.sendMessage s =
          (s, ClaudeSession.SendOutcome.busyError)) ∧
    (∀ (parse : String → StreamLine) (n : Nat) (evs : List SessionEvent),
        (completionIds (sessionRun parse (newSession n) evs).2).Nodup) ∧
    (∀ s : ClaudeSession, s.state = SessionState.initializing →
        (ClaudeSession.sendMessage s).2 =
          ClaudeSession.SendOutcome.accepted s.nextMsgId) := by
  refine ⟨?_, sessionRun_nodup, ?_⟩
  · intro s hs
    unfold ClaudeSession.sendMessage
    simp [hs]
  · intro s hs
    unfold ClaudeSession.sendMessage
    simp [hs]

theorem C1_serialization_amended_witness :
    demoProcessing.state = SessionState.processing ∧
    ClaudeSession.sendMessage demoProcessing =
      (demoProcessing, ClaudeSession.SendOutcome.busyError) ∧
    (completionIds (sessionRun demoParse (newSession 1000)
        [SessionEvent.send, SessionEvent.timerFires]).2).Nodup ∧
    (ClaudeSession.sendMessage (newSession 1000)).2 =
      ClaudeSession.SendOutcome.accepted 0 :=
  ⟨rfl,
   C1_serialization_amended.1 demoProcessing rfl,
   C1_serialization_amended.2.1 demoParse 1000
     [SessionEvent.send, SessionEvent.timerFires],
   C1_serialization_amended.2.2 (newSession 1000) rfl⟩

/-- C1 counterexample: from a fresh session, send a message while still
`initializing`, then deliver the worker's init line. Message 0 is still
pending, yet the state is `idle`, so a second `sendMessage` is accepted
(`accepted 1`) instead of being refused with session-busy, and it
replaces the pending future: message 0's resolver/rejecter can no longer
fire. -/
theorem C1_counterexample :
    ((sessionRun demoParse (newSession 1000)
        [SessionEvent.send, SessionEvent.stdout "initline\n"]).1.pendingId
      = some 0) ∧
    ((sessionRun demoParse (newSession 1000)
        [SessionEvent.send, SessionEvent.stdout "initline\n"]).1.state
      = SessionState.idle) ∧
    ((ClaudeSession.sendMessage (sessionRun demoParse (newSession 1000)
        [SessionEvent.send, SessionEvent.stdout "initline\n"]).1).2
      = ClaudeSession.SendOutcome.accepted 1) ∧
    ((ClaudeSession.sendMessage (sessionRun demoParse (newSession 1000)
        [SessionEvent.send, SessionEvent.stdout "initline\n"]).1).1.pendingId
      = some 1) := by
  refine ⟨?_, ?_, ?_, ?_⟩ <;> decide

-- ===========================================================================
-- C4 — the session state machine
-- ===========================================================================

/-- C4 (amended): every event moves the session state only along:
`initializing`→`processing` or `idle`→`processing` on an accepted send;
any state→`idle` on an init line, a result line or a firing message
timer; any live state→`dead` on process-close, spawn error, destroy,
release or buffer overflow; otherwise the state is unchanged. The
original claim's "a session that has reached dead never leaves dead"
does not hold: `processLine` assigns `idle` unconditionally, so a late
init or result line processed after death (destroy does not detach the
stdout listener) moves `dead` back to `idle`. -/
theorem C4_state_machine_amended (parse : String → StreamLine)
    (s : ClaudeSession) (e : SessionEvent) :
    (sessionStep parse s e).next.state = s.state ∨
    ((sessionStep parse s e).next.state = SessionState.processing ∧
      e = SessionEvent.send ∧
      (s.state = SessionState.initializing ∨ s.state = SessionState.idle)) ∨
    ((sessionStep parse s e).next.state = SessionState.idle ∧
      (e = SessionEvent.timerFires ∨ ∃ c, e = SessionEvent.stdout c)) ∨
    ((sessionStep parse s e).next.state = SessionState.dead ∧
      s.state ≠ SessionState.dead ∧
      (e = SessionEvent.procClose ∨ e = SessionEvent.spawnErr ∨
       e = SessionEvent.destroyCall ∨ e = SessionEvent.releaseCall ∨
       ∃ c, e = SessionEvent.stdout c)) := by
  cases e with
  | send =>
      unfold sessionStep ClaudeSession.sendMessage
      by_cases hd : s.state = SessionState.dead
      · left; simp [hd]
      · by_cases hb : s.state = SessionState.processing
        · left; simp [hd, hb]
        · right; left
          refine ⟨by simp [hd, hb], rfl, ?_⟩
          cases hs : s.state with
          | initializing => left; rfl
          | idle => right; rfl
          | processing => exact absurd hs hb
          | dead => exact absurd hs hd
  | timerFires =>
      unfold sessionStep ClaudeSession.timeoutFire
      by_cases ha : s.timerArmed
      · right; right; left
        constructor
        · cases hp : s.pendingId <;> simp [ha, hp]
        · left; rfl
      · left; simp [ha]
  | stdout chunk =>
      by_cases hdet : s.listenersDetached
      · left; simp [sessionStep, hdet]
      · have hstep : (sessionStep parse s (SessionEvent.stdout chunk)).next =
            (ClaudeSession.handleStdoutData parse s chunk).1 := by
          simp [sessionStep, hdet]
        rw [hstep]
        rcases handleStdoutData_state parse s chunk with h | h | ⟨h, hne⟩
        · left; exact h
        · right; right; left
          exact ⟨h, Or.inr ⟨chunk, rfl⟩⟩
        · right; right; right
          exact ⟨h, hne, Or.inr (Or.inr (Or.inr (Or.inr ⟨chunk, rfl⟩)))⟩
  | procClose =>
      by_cases hdet : s.listenersDetached
      · left; simp [sessionStep, hdet]
      · by_cases hd : s.state = SessionState.dead
        · left
          simp [sessionStep, hdet, ClaudeSession.processClose, hd]
        · right; right; right
          refine ⟨?_, hd, Or.inl rfl⟩
          simp only [sessionStep, hdet, Bool.false_eq_true, if_false]
          unfold ClaudeSession.processClose ClaudeSession.rejectPending
            ClaudeSession.resolveInitError
          simp only [hd, if_false]
          cases hp : s.pendingId <;> simp [hp]
  | spawnErr =>
      by_cases hdet : s.listenersDetached
      · left; simp [sessionStep, hdet]
      · by_cases hd : s.state = SessionState.dead
        · left
          simp only [sessionStep, hdet, Bool.false_eq_true, if_false]
          unfold ClaudeSession.spawnError ClaudeSession.rejectPending
            ClaudeSession.resolveInitError
          cases hp : s.pendingId <;> simp [hp, hd]
        · right; right; right
          refine ⟨?_, hd, Or.inr (Or.inl rfl)⟩
          simp only [sessionStep, hdet, Bool.false_eq_true, if_false]
          unfold ClaudeSession.spawnError ClaudeSession.rejectPending
            ClaudeSession.resolveInitError
          cases hp : s.pendingId <;> simp [hp]
  | destroyCall =>
      by_cases hd : s.state = SessionState.dead
      · left
        have := destroy_noop_of_dead s hd
        simp [sessionStep, this]
      · right; right; right
        refine ⟨?_, hd, Or.inr (Or.inr (Or.inl rfl))⟩
        have := destroy_state_dead s hd
        simpa [sessionStep] using this
  | releaseCall =>
      by_cases hd : s.state = SessionState.dead
      · left
        have := release_noop_of_dead s hd
        simp [sessionStep, this]
      · right; right; right
        refine ⟨?_, hd, Or.inr (Or.inr (Or.inr (Or.inl rfl)))⟩
        simp only [sessionStep]
        unfold ClaudeSession.release ClaudeSession.rejectPending
          ClaudeSession.resolveInitError
        simp only [hd, if_false]
        cases hp : s.pendingId <;> simp [hp]

/-- C4 counterexample: send, then destroy — the session is `dead` — then
deliver a result line on stdout (destroy does not detach the listener):
the session is back in `idle`, so `dead` is left again, contradicting
the original claim. -/
theorem C4_counterexample :
    ((sessionRun demoParse (newSession 1000)
        [SessionEvent.send, SessionEvent.destroyCall]).1.state
      = SessionState.dead) ∧
    ((sessionRun demoParse (newSession 1000)
        [SessionEvent.send, SessionEvent.destroyCall,
         SessionEvent.stdout "resultline\n"]).1.state
      = SessionState.idle) := by
  constructor <;> decide

-- ===========================================================================
-- C5 — message timeout leaves the process usable
-- ===========================================================================

/-- C5: for an in-flight message whose timer fires before the result
line: the child process is not signalled (the kill flag is untouched),
the session transitions back to `idle`, the pending future is rejected
with timeout; a result line arriving later fires no future (it is
silently consumed) and leaves the session `idle`; and a subsequent
`sendMessage` on the same session is accepted. -/
theorem C5_timeout_recovery (s : ClaudeSession) (m : Nat) (r : ResultData)
    (hstate : s.state = SessionState.processing)
    (hp : s.pendingId = some m) (ht : s.timerArmed = true) :
    (ClaudeSession.timeoutFire s).2 =
      [Completion.rejected m RejectReason.timeout] ∧
    (ClaudeSession.timeoutFire s).1.state = SessionState.idle ∧
    (ClaudeSession.timeoutFire s).1.procKilled = s.procKilled ∧
    (ClaudeSession.processLine (ClaudeSession.timeoutFire s).1
        (StreamLine.result r)).2 = [] ∧
    (ClaudeSession.processLine (ClaudeSession.timeoutFire s).1
        (StreamLine.result r)).1.state = SessionState.idle ∧
    (ClaudeSession.sendMessage
        (ClaudeSession.processLine (ClaudeSession.timeoutFire s).1
          (StreamLine.result r)).1).2 =
      ClaudeSession.SendOutcome.accepted s.nextMsgId := by
  unfold ClaudeSession.timeoutFire ClaudeSession.processLine
    ClaudeSession.sendMessage
  simp [ht, hp]

theorem C5_timeout_recovery_witness :
    demoProcessing.state = SessionState.processing ∧
    demoProcessing.pendingId = some 0 ∧
    demoProcessing.timerArmed = true ∧
    (ClaudeSession.timeoutFire demoProcessing).2 =
      [Completion.rejected 0 RejectReason.timeout] ∧
    (ClaudeSession.sendMessage
        (ClaudeSession.processLine
          (ClaudeSession.timeoutFire demoProcessing).1
          (StreamLine.result demoResult)).1).2 =
      ClaudeSession.SendOutcome.accepted 1 :=
  ⟨rfl, rfl, rfl,
   (C5_timeout_recovery demoProcessing 0 demoResult rfl rfl rfl).1,
   (C5_timeout_recovery demoProcessing 0 demoResult rfl rfl rfl).2.2.2.2.2⟩

-- ===========================================================================
-- C2 — task load tenant isolation
-- ===========================================================================

/-- C2 (amended): for a stored task whose owner is non-null and
non-empty, `load` returns the task exactly when the call is internal
(no caller context), the caller is the shared-secret (master) tier, or
the caller's client name equals the stored owner; in every other case it
returns `none`, indistinguishable from a missing task. (The original
claim, stated for every non-null owner, fails at the empty-string owner:
the code's `!taskOwner` truthiness check treats an empty-string owner
like an unowned legacy row and grants access to any authenticated
caller.) -/
theorem C2_load_policy_amended (rows : List TaskRow) (taskId : String)
    (context : Option ServerCallContext) (row : TaskRow) (o : String)
    (hfind : rows.find? (fun r => r.id == taskId) = some row)
    (howner : row.client_name = some o) (hne : o ≠ "") :
    (SqliteTaskStore.load rows taskId context =
        some (SqliteTaskStore.rowToTask row) ↔
      (context = none ∨
        (∃ a, context = some { user := some (CallUser.authenticated a) } ∧
          (a.type = AuthType.master ∨ a.clientName = o)))) ∧
    (SqliteTaskStore.load rows taskId context =
        some (SqliteTaskStore.rowToTask row) ∨
      SqliteTaskStore.load rows taskId context = none) := by
  unfold SqliteTaskStore.load
  rw [hfind]
  cases context with
  | none =>
      simp [SqliteTaskStore.canAccessTask]
  | some c =>
      cases hu : c.user with
      | none =>
          constructor
          · simp only [SqliteTaskStore.canAccessTask, hu, Bool.false_eq_true,
              if_false]
            constructor
            · intro h
              exact absurd h (by simp)
            · rintro (h | ⟨a, ha, _⟩)
              · exact absurd h (by simp)
              · have : c.user = some (CallUser.authenticated a) := by
                  have hc : c = { user := some (CallUser.authenticated a) } := by
                    injection ha
                  rw [hc]
                rw [hu] at this
                exact absurd this (by simp)
          · right
            simp [SqliteTaskStore.canAccessTask, hu]
      | some u =>
          cases u with
          | unauthenticated =>
              constructor
              · simp only [SqliteTaskStore.canAccessTask, hu,
                  Bool.false_eq_true, if_false]
                constructor
                · intro h
                  exact absurd h (by simp)
                · rintro (h | ⟨a, ha, _⟩)
                  · exact absurd h (by simp)
                  · have hc : c = { user := some (CallUser.authenticated a) } := by
                      injection ha
                    rw [hc] at hu
                    simp at hu
              · right
                simp [SqliteTaskStore.canAccessTask, hu]
          | authenticated a =>
              have hfalsy : SqliteTaskStore.ownerFalsy (some o) = false := by
                simp [SqliteTaskStore.ownerFalsy, hne]
              by_cases hm : a.type = AuthType.master
              · constructor
                · simp only [SqliteTaskStore.canAccessTask, hu, hm, if_true]
                  constructor
                  · intro _
                    right
                    exact ⟨a, by cases c; simp_all, Or.inl hm⟩
                  · intro _
                    simp
                · left
                  simp [SqliteTaskStore.canAccessTask, hu, hm]
              · by_cases hcn : a.clientName = o
                · constructor
                  · simp only [SqliteTaskStore.canAccessTask, hu, hm,
                      if_false, hfalsy, Bool.false_eq_true, howner]
                    constructor
                    · intro _
                      right
                      exact ⟨a, by cases c; simp_all, Or.inr hcn⟩
                    · intro _
                      simp [hcn]
                  · left
                    simp [SqliteTaskStore.canAccessTask, hu, hm, hfalsy,
                      howner, hcn]
                · constructor
                  · simp only [SqliteTaskStore.canAccessTask, hu, hm,
                      if_false, hfalsy, Bool.false_eq_true, howner]
                    constructor
                    · intro h
                      exfalso
                      revert h
                      simp [hcn]
                    · rintro (h | ⟨b, hb, hbm⟩)
                      · exact absurd h (by simp)
                      · exfalso
                        have hc : c = { user := some (CallUser.authenticated b) } := by
                          injection hb
                        rw [hc] at hu
                        simp only [ServerCallContext.mk.injEq] at hu
                        have hab : a = b := by
                          have := hu
                          simp at this
                          exact this.symm
                        subst hab
                        rcases hbm with h | h
                        · exact hm h
                        · exact hcn h
                  · right
                    simp [SqliteTaskStore.canAccessTask, hu, hm, hfalsy,
                      howner, hcn]

theorem C2_load_policy_amended_witness :
    ([demoTaskRow].find? (fun r => r.id == "t1") = some demoTaskRow) ∧
    (demoTaskRow.client_name = some "alice") ∧
    (SqliteTaskStore.load [demoTaskRow] "t1" (some demoCtxBob) =
        some (SqliteTaskStore.rowToTask demoTaskRow) ↔
      (some demoCtxBob = none ∨
        (∃ a, some demoCtxBob =
            some { user := some (CallUser.authenticated a) } ∧
          (a.type = AuthType.master ∨ a.clientName = "alice")))) :=
  ⟨by decide, by decide,
   (C2_load_policy_amended [demoTaskRow] "t1" (some demoCtxBob)
      demoTaskRow "alice" (by decide) (by decide) (by decide)).1⟩

/-- C2 counterexample: a stored task whose owner is the non-null empty
string is returned to an authenticated caller (bob) who is not the
owner, not the master tier and not internal — the original claim says
such a load must return absent. -/
theorem C2_counterexample :
    demoEmptyOwnerRow.client_name = some "" ∧
    demoAuthBob.type ≠ AuthType.master ∧
    SqliteTaskStore.load [demoEmptyOwnerRow] "t1" (some demoCtxBob) =
      some (SqliteTaskStore.rowToTask demoEmptyOwnerRow) := by
  refine ⟨rfl, by decide, by decide⟩

-- ===========================================================================
-- C10 — the stored task owner is write-once
-- ===========================================================================

/-- C10: every row carrying the saved task's id after a `save` either
descends from an existing row — its `client_name` is exactly the old
row's owner, no matter which caller performed the update, while every
payload column takes the saved task's values and `updated_at` the fresh
clock — or, when no row with that id existed, it is the freshly inserted
row whose owner is stamped from the caller exactly once. -/
theorem C10_owner_write_once (rows : List TaskRow) (task : A2ATask)
    (context : Option ServerCallContext) (now : Nat) (r2 : TaskRow)
    (hmem : r2 ∈ SqliteTaskStore.save rows task context now)
    (hid : r2.id = task.id) :
    (∃ r ∈ rows, r.id = task.id ∧ r2.client_name = r.client_name ∧
      r2.context_id = task.contextId ∧
      r2.status_state = task.statusState ∧
      r2.status_timestamp = task.statusTimestamp ∧
      r2.status_message_json = task.statusMessageJson ∧
      r2.artifacts_json = task.artifactsJson ∧
      r2.history_json = task.historyJson ∧
      r2.metadata_json = task.metadataJson ∧
      r2.updated_at = now) ∨
    ((∀ r ∈ rows, r.id ≠ task.id) ∧
      r2.client_name = SqliteTaskStore.resolveClientName context ∧
      r2.context_id = task.contextId ∧
      r2.status_state = task.statusState ∧
      r2.updated_at = now) := by
  unfold SqliteTaskStore.save at hmem
  by_cases hany : rows.any (fun r => r.id == task.id)
  · left
    rw [if_pos hany] at hmem
    rw [List.mem_map] at hmem
    obtain ⟨r, hr, heq⟩ := hmem
    by_cases hrid : r.id = task.id
    · have hb : (r.id == task.id) = true := by simp [hrid]
      rw [if_pos hb] at heq
      refine ⟨r, hr, hrid, ?_⟩
      rw [← heq]
      exact ⟨rfl, rfl, rfl, rfl, rfl, rfl, rfl, rfl, rfl⟩
    · have hb : ¬((r.id == task.id) = true) := by simp [hrid]
      rw [if_neg hb] at heq
      exfalso
      rw [heq] at hrid
      exact hrid hid
  · right
    rw [if_neg hany] at hmem
    rw [List.any_eq_true] at hany
    push_neg at hany
    rcases List.mem_append.1 hmem with hin | hin
    · exfalso
      have := hany r2 hin
      simp [hid] at this
    · rw [List.mem_singleton] at hin
      refine ⟨?_, ?_⟩
      · intro r hr
        have := hany r hr
        simpa using this
      · rw [hin]
        exact ⟨rfl, rfl, rfl, rfl⟩

theorem C10_owner_write_once_witness :
    (({ demoTaskRow with
          status_state := "completed"
          status_timestamp := some "2026-10-11T00:00:00Z"
          status_message_json := some "msg-json"
          updated_at := 9 } : TaskRow) ∈
        SqliteTaskStore.save [demoTaskRow] demoTaskUpdate
          (some demoCtxBob) 9) ∧
    ((∃ r ∈ [demoTaskRow], r.id = demoTaskUpdate.id ∧
        ({ demoTaskRow with
            status_state := "completed"
            status_timestamp := some "2026-10-11T00:00:00Z"
            status_message_json := some "msg-json"
            updated_at := 9 } : TaskRow).client_name = r.client_name ∧
        ({ demoTaskRow with
            status_state := "completed"
            status_timestamp := some "2026-10-11T00:00:00Z"
            status_message_json := some "msg-json"
            updated_at := 9 } : TaskRow).context_id =
          demoTaskUpdate.contextId ∧
        ({ demoTaskRow with
            status_state := "completed"
            status_timestamp := some "2026-10-11T00:00:00Z"
            status_message_json := some "msg-json"
            updated_at := 9 } : TaskRow).status_state =
          demoTaskUpdate.statusState ∧
        ({ demoTaskRow with
            status_state := "completed"
            status_timestamp := some "2026-10-11T00:00:00Z"
            status_message_json := some "msg-json"
            updated_at := 9 } : TaskRow).status_timestamp =
          demoTaskUpdate.statusTimestamp ∧
        ({ demoTaskRow with
            status_state := "completed"
            status_timestamp := some "2026-10-11T00:00:00Z"
            status_message_json := some "msg-json"
            updated_at := 9 } : TaskRow).status_message_json =
          demoTaskUpdate.statusMessageJson ∧
        ({ demoTaskRow with
            status_state := "completed"
            status_timestamp := some "2026-10-11T00:00:00Z"
            status_message_json := some "msg-json"
            updated_at := 9 } : TaskRow).artifacts_json =
          demoTaskUpdate.artifactsJson ∧
        ({ demoTaskRow with
            status_state := "completed"
            status_timestamp := some "2026-10-11T00:00:00Z"
            status_message_json := some "msg-json"
            updated_at := 9 } : TaskRow).history_json =
          demoTaskUpdate.historyJson ∧
        ({ demoTaskRow with
            status_state := "completed"
            status_timestamp := some "2026-10-11T00:00:00Z"
            status_message_json := some "msg-json"
            updated_at := 9 } : TaskRow).metadata_json =
          demoTaskUpdate.metadataJson ∧
        ({ demoTaskRow with
            status_state := "completed"
            status_timestamp := some "2026-10-11T00:00:00Z"
            status_message_json := some "msg-json"
            updated_at := 9 } : TaskRow).updated_at = 9) ∨
      ((∀ r ∈ [demoTaskRow], r.id ≠ demoTaskUpdate.id) ∧
        ({ demoTaskRow with
            status_state := "completed"
            status_timestamp := some "2026-10-11T00:00:00Z"
            status_message_json := some "msg-json"
            updated_at := 9 } : TaskRow).client_name =
          SqliteTaskStore.resolveClientName (some demoCtxBob) ∧
        ({ demoTaskRow with
            status_state := "completed"
            status_timestamp := some "2026-10-11T00:00:00Z"
            status_message_json := some "msg-json"
            updated_at := 9 } : TaskRow).context_id =
          demoTaskUpdate.contextId ∧
        ({ demoTaskRow with
            status_state := "completed"
            status_timestamp := some "2026-10-11T00:00:00Z"
            status_message_json := some "msg-json"
            updated_at := 9 } : TaskRow).status_state =
          demoTaskUpdate.statusState ∧
        ({ demoTaskRow with
            status_state := "completed"
            status_timestamp := some "2026-10-11T00:00:00Z"
            status_message_json := some "msg-json"
            updated_at := 9 } : TaskRow).updated_at = 9)) :=
  ⟨by decide,
   C10_owner_write_once [demoTaskRow] demoTaskUpdate (some demoCtxBob) 9
     { demoTaskRow with
         status_state := "completed"
         status_timestamp := some "2026-10-11T00:00:00Z"
         status_message_json := some "msg-json"
         updated_at := 9 }
     (by decide) (by decide)⟩

-- ===========================================================================
-- Shape of the execute pipeline
-- ===========================================================================

/-- Complete case split of `execute`: exactly one pipeline stage decides
the outcome, and each arm records the conditions that led there. -/
theorem execute_eq_cases (cfg : ServerConfig)
    (env : ClaudeAgentExecutor.ExecEnv) (requestUser : Option CallUser)
    (message : UserMessage) :
    (ClaudeAgentExecutor.executeIsEmpty
        (convertPartsToMessage message.parts).message = true ∧
      ClaudeAgentExecutor.execute cfg env requestUser message =
        ClaudeAgentExecutor.ExecOutcome.emptyMessage) ∨
    (ClaudeAgentExecutor.executeIsEmpty
        (convertPartsToMessage message.parts).message = false ∧
      lookupAgent cfg (ClaudeAgentExecutor.resolveAgentName cfg message) =
        none ∧
      ClaudeAgentExecutor.execute cfg env requestUser message =
        ClaudeAgentExecutor.ExecOutcome.agentNotFoundOrDisabled
          (ClaudeAgentExecutor.resolveAgentName cfg message)) ∨
    (∃ ac, ClaudeAgentExecutor.executeIsEmpty
        (convertPartsToMessage message.parts).message = false ∧
      lookupAgent cfg (ClaudeAgentExecutor.resolveAgentName cfg message) =
        some ac ∧
      ac.enabled = false ∧
      ClaudeAgentExecutor.execute cfg env requestUser message =
        ClaudeAgentExecutor.ExecOutcome.agentNotFoundOrDisabled
          (ClaudeAgentExecutor.resolveAgentName cfg message)) ∨
    (∃ ac, ClaudeAgentExecutor.executeIsEmpty
        (convertPartsToMessage message.parts).message = false ∧
      lookupAgent cfg (ClaudeAgentExecutor.resolveAgentName cfg message) =
        some ac ∧
      ac.enabled = true ∧
      ClaudeAgentExecutor.scopeDenied ac requestUser message = true ∧
      ClaudeAgentExecutor.execute cfg env requestUser message =
        ClaudeAgentExecutor.ExecOutcome.insufficientScope
          (ClaudeAgentExecutor.resolveAgentName cfg message)) ∨
    (∃ ac e, ClaudeAgentExecutor.executeIsEmpty
        (convertPartsToMessage message.parts).message = false ∧
      lookupAgent cfg (ClaudeAgentExecutor.resolveAgentName cfg message) =
        some ac ∧
      ac.enabled = true ∧
      ClaudeAgentExecutor.scopeDenied ac requestUser message = false ∧
      env.budgetCheck
          (ClaudeAgentExecutor.executeClientName requestUser message)
          (ClaudeAgentExecutor.executeBudgetOverride requestUser) =
        some e ∧
      ClaudeAgentExecutor.execute cfg env requestUser message =
        ClaudeAgentExecutor.ExecOutcome.budgetRejected e) ∨
    (∃ ac es, ClaudeAgentExecutor.executeIsEmpty
        (convertPartsToMessage message.parts).message = false ∧
      lookupAgent cfg (ClaudeAgentExecutor.resolveAgentName cfg message) =
        some ac ∧
      ac.enabled = true ∧
      ClaudeAgentExecutor.scopeDenied ac requestUser message = false ∧
      env.budgetCheck
          (ClaudeAgentExecutor.executeClientName requestUser message)
          (ClaudeAgentExecutor.executeBudgetOverride requestUser) = none ∧
      env.existingSession = some es ∧
      es.agentName ≠ ClaudeAgentExecutor.resolveAgentName cfg message ∧
      ClaudeAgentExecutor.execute cfg env requestUser message =
        ClaudeAgentExecutor.ExecOutcome.agentMismatch es.agentName
          (ClaudeAgentExecutor.resolveAgentName cfg message)) ∨
    (∃ ac es p, ClaudeAgentExecutor.executeIsEmpty
        (convertPartsToMessage message.parts).message = false ∧
      lookupAgent cfg (ClaudeAgentExecutor.resolveAgentName cfg message) =
        some ac ∧
      ac.enabled = true ∧
      ClaudeAgentExecutor.scopeDenied ac requestUser message = false ∧
      env.budgetCheck
          (ClaudeAgentExecutor.executeClientName requestUser message)
          (ClaudeAgentExecutor.executeBudgetOverride requestUser) = none ∧
      env.existingSession = some es ∧
      es.agentName = ClaudeAgentExecutor.resolveAgentName cfg message ∧
      ClaudeAgentExecutor.execOrphanPid env es = some p ∧
      ClaudeAgentExecutor.execute cfg env requestUser message =
        ClaudeAgentExecutor.ExecOutcome.orphanStillRunning p) ∨
    (∃ ac es, ClaudeAgentExecutor.executeIsEmpty
        (convertPartsToMessage message.parts).message = false ∧
      lookupAgent cfg (ClaudeAgentExecutor.resolveAgentName cfg message) =
        some ac ∧
      ac.enabled = true ∧
      ClaudeAgentExecutor.scopeDenied ac requestUser message = false ∧
      env.budgetCheck
          (ClaudeAgentExecutor.executeClientName requestUser message)
          (ClaudeAgentExecutor.executeBudgetOverride requestUser) = none ∧
      env.existingSession = some es ∧
      es.agentName = ClaudeAgentExecutor.resolveAgentName cfg message ∧
      ClaudeAgentExecutor.execOrphanPid env es = none ∧
      ClaudeAgentExecutor.execute cfg env requestUser message =
        ClaudeAgentExecutor.ExecOutcome.dispatched
          (ClaudeAgentExecutor.resolveAgentName cfg message)
          (some es.sessionId)
          (convertPartsToMessage message.parts).message) ∨
    (∃ ac, ClaudeAgentExecutor.executeIsEmpty
        (convertPartsToMessage message.parts).message = false ∧
      lookupAgent cfg (ClaudeAgentExecutor.resolveAgentName cfg message) =
        some ac ∧
      ac.enabled = true ∧
      ClaudeAgentExecutor.scopeDenied ac requestUser message = false ∧
      env.budgetCheck
          (ClaudeAgentExecutor.executeClientName requestUser message)
          (ClaudeAgentExecutor.executeBudgetOverride requestUser) = none ∧
      env.existingSession = none ∧
      ClaudeAgentExecutor.execute cfg env requestUser message =
        ClaudeAgentExecutor.ExecOutcome.dispatched
          (ClaudeAgentExecutor.resolveAgentName cfg message) none
          (convertPartsToMessage message.parts).message) := by
  by_cases h1 : ClaudeAgentExecutor.executeIsEmpty
      (convertPartsToMessage message.parts).message
  · exact Or.inl ⟨h1, by unfold ClaudeAgentExecutor.execute; simp [h1]⟩
  · have h1f : ClaudeAgentExecutor.executeIsEmpty
        (convertPartsToMessage message.parts).message = false := by
      simpa using h1
    cases hl : lookupAgent cfg
        (ClaudeAgentExecutor.resolveAgentName cfg message) with
    | none =>
        refine Or.inr (Or.inl ⟨h1f, rfl, ?_⟩)
        unfold ClaudeAgentExecutor.execute
        simp [h1f, hl]
    | some ac =>
        by_cases hen : ac.enabled
        · by_cases hsc : ClaudeAgentExecutor.scopeDenied ac requestUser
              message
          · refine Or.inr (Or.inr (Or.inr (Or.inl ⟨ac, h1f, rfl, hen,
              hsc, ?_⟩)))
            unfold ClaudeAgentExecutor.execute
            simp [h1f, hl, hen, hsc]
          · have hscf : ClaudeAgentExecutor.scopeDenied ac requestUser
                message = false := by simpa using hsc
            cases hb : env.budgetCheck
                (ClaudeAgentExecutor.executeClientName requestUser message)
                (ClaudeAgentExecutor.executeBudgetOverride requestUser) with
            | some e =>
                refine Or.inr (Or.inr (Or.inr (Or.inr (Or.inl
                  ⟨ac, e, h1f, rfl, hen, hscf, rfl, ?_⟩))))
                unfold ClaudeAgentExecutor.execute
                simp [h1f, hl, hen, hscf, hb]
            | none =>
                cases hes : env.existingSession with
                | none =>
                    refine Or.inr (Or.inr (Or.inr (Or.inr (Or.inr (Or.inr
                      (Or.inr (Or.inr ⟨ac, h1f, rfl, hen, hscf, rfl, rfl,
                        ?_⟩)))))))
                    unfold ClaudeAgentExecutor.execute
                    simp [h1f, hl, hen, hscf, hb, hes]
                | some es =>
                    by_cases hmm : es.agentName =
                        ClaudeAgentExecutor.resolveAgentName cfg message
                    · cases ho : ClaudeAgentExecutor.execOrphanPid env es with
                      | some p =>
                          refine Or.inr (Or.inr (Or.inr (Or.inr (Or.inr
                            (Or.inr (Or.inl ⟨ac, es, p, h1f, rfl, hen, hscf,
                              rfl, rfl, hmm, ho, ?_⟩))))))
                          unfold ClaudeAgentExecutor.execute
                          simp [h1f, hl, hen, hscf, hb, hes, hmm, ho]
                      | none =>
                          refine Or.inr (Or.inr (Or.inr (Or.inr (Or.inr
                            (Or.inr (Or.inr (Or.inl ⟨ac, es, h1f, rfl, hen,
                              hscf, rfl, rfl, hmm, ho, ?_⟩)))))))
                          unfold ClaudeAgentExecutor.execute
                          simp [h1f, hl, hen, hscf, hb, hes, hmm, ho]
                    · refine Or.inr (Or.inr (Or.inr (Or.inr (Or.inr
                        (Or.inl ⟨ac, es, h1f, rfl, hen, hscf, rfl, rfl, hmm,
                          ?_⟩)))))
                      unfold ClaudeAgentExecutor.execute
                      simp [h1f, hl, hen, hscf, hb, hes, hmm]
        · have henf : ac.enabled = false := by simpa using hen
          refine Or.inr (Or.inr (Or.inl ⟨ac, h1f, rfl, henf, ?_⟩))
          unfold ClaudeAgentExecutor.execute
          simp [h1f, hl, henf]

-- ===========================================================================
-- Scope-denial characterization
-- ===========================================================================

theorem scopeDenied_true_iff (ac : AgentConfig) (u : Option CallUser)
    (m : UserMessage) (hreq : ac.required_scopes ≠ []) :
    ClaudeAgentExecutor.scopeDenied ac u m = true ↔
      ((ClaudeAgentExecutor.resolveScopes u m).contains "*" = false ∧
        ∀ sc ∈ ac.required_scopes,
          (ClaudeAgentExecutor.resolveScopes u m).contains sc = false) := by
  have hlen : decide (0 < ac.required_scopes.length) = true :=
    decide_eq_true (List.length_pos.2 hreq)
  unfold ClaudeAgentExecutor.scopeDenied
  rw [hlen]
  simp only [Bool.true_and]
  rw [Bool.and_eq_true, Bool.not_eq_true', Bool.not_eq_true',
    List.any_eq_false]
  constructor
  · rintro ⟨h1, h2⟩
    exact ⟨h1, fun sc hsc => by simpa using h2 sc hsc⟩
  · rintro ⟨h1, h2⟩
    exact ⟨h1, fun sc hsc => by simpa using h2 sc hsc⟩

theorem scopeDenied_false_iff (ac : AgentConfig) (u : Option CallUser)
    (m : UserMessage) (hreq : ac.required_scopes ≠ []) :
    ClaudeAgentExecutor.scopeDenied ac u m = false ↔
      ((ClaudeAgentExecutor.resolveScopes u m).contains "*" = true ∨
        ∃ sc ∈ ac.required_scopes,
          (ClaudeAgentExecutor.resolveScopes u m).contains sc = true) := by
  rw [← Bool.not_eq_true, scopeDenied_true_iff ac u m hreq]
  constructor
  · intro h
    by_cases hc : (ClaudeAgentExecutor.resolveScopes u m).contains "*" = true
    · exact Or.inl hc
    · right
      by_contra hnone
      push_neg at hnone
      exact h ⟨by simpa using hc, fun sc hsc => by
        have := hnone sc hsc
        simpa using this⟩
  · rintro (hc | ⟨sc, hsc, hin⟩) ⟨h1, h2⟩
    · rw [hc] at h1
      exact absurd h1 (by simp)
    · have := h2 sc hsc
      rw [hin] at this
      exact absurd this (by simp)

-- ===========================================================================
-- C3 — the scope gate
-- ===========================================================================

/-- C3 (amended): for an agent with a non-empty required-scopes list (and
a request that passes the earlier pipeline stages), the request is
refused with insufficient-scope exactly when the *resolved* scope set —
the message metadata's scopes array when present, otherwise the scopes
derived from the presented credential — contains neither the wildcard
nor any required scope name; and whenever the request is dispatched the
resolved scope set does contain the wildcard or a required name. The
original claim fails because the granted scope set is not always derived
from the credential: a scopes array in the message metadata takes
precedence over the credential's scopes. -/
theorem C3_scope_gate_amended (cfg : ServerConfig)
    (env : ClaudeAgentExecutor.ExecEnv) (requestUser : Option CallUser)
    (message : UserMessage) (ac : AgentConfig)
    (hne : ClaudeAgentExecutor.executeIsEmpty
        (convertPartsToMessage message.parts).message = false)
    (hl : lookupAgent cfg
        (ClaudeAgentExecutor.resolveAgentName cfg message) = some ac)
    (hen : ac.enabled = true)
    (hreq : ac.required_scopes ≠ []) :
    (ClaudeAgentExecutor.execute cfg env requestUser message =
        ClaudeAgentExecutor.ExecOutcome.insufficientScope
          (ClaudeAgentExecutor.resolveAgentName cfg message) ↔
      ((ClaudeAgentExecutor.resolveScopes requestUser message).contains "*"
          = false ∧
        ∀ sc ∈ ac.required_scopes,
          (ClaudeAgentExecutor.resolveScopes requestUser message).contains
            sc = false)) ∧
    (∀ a r m2, ClaudeAgentExecutor.execute cfg env requestUser message =
        ClaudeAgentExecutor.ExecOutcome.dispatched a r m2 →
      ((ClaudeAgentExecutor.resolveScopes requestUser message).contains "*"
          = true ∨
        ∃ sc ∈ ac.required_scopes,
          (ClaudeAgentExecutor.resolveScopes requestUser message).contains
            sc = true)) := by
  constructor
  · constructor
    · intro hexec
      rcases execute_eq_cases cfg env requestUser message with
        ⟨he, hq⟩ |
        ⟨he, hlk, hq⟩ |
        ⟨ac2, he, hlk, henf, hq⟩ |
        ⟨ac2, he, hlk, hen2, hsc2, hq⟩ |
        ⟨ac2, e2, he, hlk, hen2, hscf2, hb2, hq⟩ |
        ⟨ac2, es2, he, hlk, hen2, hscf2, hb2, hes2, hmm2, hq⟩ |
        ⟨ac2, es2, p2, he, hlk, hen2, hscf2, hb2, hes2, hag2, ho2, hq⟩ |
        ⟨ac2, es2, he, hlk, hen2, hscf2, hb2, hes2, hag2, ho2, hq⟩ |
        ⟨ac2, he, hlk, hen2, hscf2, hb2, hes2, hq⟩
      · simp [hne] at he
      · simp [hl] at hlk
      · rw [hl] at hlk
        have hac : ac = ac2 := by simpa using hlk
        subst hac
        simp [hen] at henf
      · rw [hl] at hlk
        have hac : ac = ac2 := by simpa using hlk
        subst hac
        exact (scopeDenied_true_iff ac requestUser message hreq).1 hsc2
      · rw [hq] at hexec
        simp at hexec
      · rw [hq] at hexec
        simp at hexec
      · rw [hq] at hexec
        simp at hexec
      · rw [hq] at hexec
        simp at hexec
      · rw [hq] at hexec
        simp at hexec
    · intro hrhs
      have hden : ClaudeAgentExecutor.scopeDenied ac requestUser message =
          true := (scopeDenied_true_iff ac requestUser message hreq).2 hrhs
      unfold ClaudeAgentExecutor.execute
      simp [hne, hl, hen, hden]
  · intro a r m2 hexec
    rcases execute_eq_cases cfg env requestUser message with
      ⟨he, hq⟩ |
      ⟨he, hlk, hq⟩ |
      ⟨ac2, he, hlk, henf, hq⟩ |
      ⟨ac2, he, hlk, hen2, hsc2, hq⟩ |
      ⟨ac2, e2, he, hlk, hen2, hscf2, hb2, hq⟩ |
      ⟨ac2, es2, he, hlk, hen2, hscf2, hb2, hes2, hmm2, hq⟩ |
      ⟨ac2, es2, p2, he, hlk, hen2, hscf2, hb2, hes2, hag2, ho2, hq⟩ |
      ⟨ac2, es2, he, hlk, hen2, hscf2, hb2, hes2, hag2, ho2, hq⟩ |
      ⟨ac2, he, hlk, hen2, hscf2, hb2, hes2, hq⟩
    · simp [hne] at he
    · simp [hl] at hlk
    · rw [hq] at hexec
      simp at hexec
    · rw [hq] at hexec
      simp at hexec
    · rw [hq] at hexec
      simp at hexec
    · rw [hq] at hexec
      simp at hexec
    · rw [hq] at hexec
      simp at hexec
    · rw [hl] at hlk
      have hac : ac = ac2 := by simpa using hlk
      subst hac
      exact (scopeDenied_false_iff ac requestUser message hreq).1 hscf2
    · rw [hl] at hlk
      have hac : ac = ac2 := by simpa using hlk
      subst hac
      exact (scopeDenied_false_iff ac requestUser message hreq).1 hscf2

theorem C3_scope_gate_amended_witness :
    (lookupAgent demoCfgScoped
        (ClaudeAgentExecutor.resolveAgentName demoCfgScoped demoMsgHello) =
      some demoAgentScoped) ∧
    demoAgentScoped.enabled = true ∧
    demoAgentScoped.required_scopes ≠ [] ∧
    (ClaudeAgentExecutor.execute demoCfgScoped demoEnv
        (some (CallUser.authenticated demoAuthBob)) demoMsgHello =
        ClaudeAgentExecutor.ExecOutcome.insufficientScope
          (ClaudeAgentExecutor.resolveAgentName demoCfgScoped
            demoMsgHello) ↔
      ((ClaudeAgentExecutor.resolveScopes
            (some (CallUser.authenticated demoAuthBob))
            demoMsgHello).contains "*" = false ∧
        ∀ sc ∈ demoAgentScoped.required_scopes,
          (ClaudeAgentExecutor.resolveScopes
              (some (CallUser.authenticated demoAuthBob))
              demoMsgHello).contains sc = false)) :=
  ⟨by decide, rfl, by decide,
   (C3_scope_gate_amended demoCfgScoped demoEnv
      (some (CallUser.authenticated demoAuthBob)) demoMsgHello
      demoAgentScoped (by decide) (by decide) rfl (by decide)).1⟩

/-- C3 counterexample: the agent "general" requires agent:general, the
caller's credential carries no scopes at all, yet the request is
dispatched because the message metadata smuggles the scopes array
["agent:general"], which the code prefers over the credential. The
original claim requires this request to be rejected with
insufficient-scope. -/
theorem C3_counterexample :
    demoAuthBob.scopes = [] ∧
    demoAgentScoped.required_scopes = ["agent:general"] ∧
    ClaudeAgentExecutor.execute demoCfgScoped demoEnv
        (some (CallUser.authenticated demoAuthBob)) demoMsgScopeMeta =
      ClaudeAgentExecutor.ExecOutcome.dispatched "general" none
        (Sum.inl "Hello") :=
  ⟨rfl, rfl, by decide⟩

-- ===========================================================================
-- C6 — contextId is bound to its first agent
-- ===========================================================================

/-- C6: when the contextId's stored session was created with a different
agent than the one this request resolves to, no worker is ever
dispatched, and — provided the earlier pipeline stages pass (non-empty
message, resolved agent exists and is enabled, scope and budget checks
pass) — the reply is exactly the agent-mismatch error naming the bound
agent and the requested one. -/
theorem C6_agent_binding (cfg : ServerConfig)
    (env : ClaudeAgentExecutor.ExecEnv) (requestUser : Option CallUser)
    (message : UserMessage) (es : SessionMetadata)
    (hes : env.existingSession = some es)
    (hmm : es.agentName ≠ ClaudeAgentExecutor.resolveAgentName cfg message) :
    (∀ a r m2, ClaudeAgentExecutor.execute cfg env requestUser message ≠
        ClaudeAgentExecutor.ExecOutcome.dispatched a r m2) ∧
    (∀ ac, ClaudeAgentExecutor.executeIsEmpty
          (convertPartsToMessage message.parts).message = false →
      lookupAgent cfg (ClaudeAgentExecutor.resolveAgentName cfg message) =
        some ac →
      ac.enabled = true →
      ClaudeAgentExecutor.scopeDenied ac requestUser message = false →
      env.budgetCheck
          (ClaudeAgentExecutor.executeClientName requestUser message)
          (ClaudeAgentExecutor.executeBudgetOverride requestUser) = none →
      ClaudeAgentExecutor.execute cfg env requestUser message =
        ClaudeAgentExecutor.ExecOutcome.agentMismatch es.agentName
          (ClaudeAgentExecutor.resolveAgentName cfg message)) := by
  constructor
  · intro a r m2 hexec
    rcases execute_eq_cases cfg env requestUser message with
      ⟨he, hq⟩ |
      ⟨he, hlk, hq⟩ |
      ⟨ac2, he, hlk, henf, hq⟩ |
      ⟨ac2, he, hlk, hen2, hsc2, hq⟩ |
      ⟨ac2, e2, he, hlk, hen2, hscf2, hb2, hq⟩ |
      ⟨ac2, es2, he, hlk, hen2, hscf2, hb2, hes2, hmm2, hq⟩ |
      ⟨ac2, es2, p2, he, hlk, hen2, hscf2, hb2, hes2, hag2, ho2, hq⟩ |
      ⟨ac2, es2, he, hlk, hen2, hscf2, hb2, hes2, hag2, ho2, hq⟩ |
      ⟨ac2, he, hlk, hen2, hscf2, hb2, hes2, hq⟩
    · rw [hq] at hexec; simp at hexec
    · rw [hq] at hexec; simp at hexec
    · rw [hq] at hexec; simp at hexec
    · rw [hq] at hexec; simp at hexec
    · rw [hq] at hexec; simp at hexec
    · rw [hq] at hexec; simp at hexec
    · rw [hq] at hexec; simp at hexec
    · rw [hes] at hes2
      have : es = es2 := by simpa using hes2
      subst this
      exact hmm hag2
    · rw [hes] at hes2
      simp at hes2
  · intro ac hne hl hen hscf hb
    unfold ClaudeAgentExecutor.execute
    simp [hne, hl, hen, hscf, hb, hes, hmm]

theorem C6_agent_binding_witness :
    demoEnvSession.existingSession = some demoSessionMeta ∧
    demoSessionMeta.agentName = "general" ∧
    ClaudeAgentExecutor.resolveAgentName demoCfg2 demoMsgCode = "code" ∧
    ClaudeAgentExecutor.execute demoCfg2 demoEnvSession none demoMsgCode =
      ClaudeAgentExecutor.ExecOutcome.agentMismatch "general" "code" :=
  ⟨rfl, rfl, by decide,
   (C6_agent_binding demoCfg2 demoEnvSession none demoMsgCode
      demoSessionMeta rfl (by decide)).2 demoAgentOpen (by decide)
      (by decide) rfl (by decide) rfl⟩

-- ===========================================================================
-- C7 — live-orphan detection
-- ===========================================================================

/-- C7: when the contextId's session row has `processAlive = false` and
its stored PID is truthy and alive at the OS level, no worker is ever
dispatched; when the earlier pipeline stages pass and the row is bound
to the resolved agent, the reply is exactly the orphan-still-running
message carrying that PID; and every session row recovered by
`loadFromDb` has `processAlive = false`. -/
theorem C7_orphan_detection (cfg : ServerConfig)
    (env : ClaudeAgentExecutor.ExecEnv) (requestUser : Option CallUser)
    (message : UserMessage) (es : SessionMetadata) (p : Nat)
    (hes : env.existingSession = some es)
    (hdead : es.processAlive = false)
    (hpid : env.lastPid = some p)
    (hp0 : p ≠ 0)
    (halive : env.pidAlive p = true) :
    (∀ a r m2, ClaudeAgentExecutor.execute cfg env requestUser message ≠
        ClaudeAgentExecutor.ExecOutcome.dispatched a r m2) ∧
    (∀ ac, ClaudeAgentExecutor.executeIsEmpty
          (convertPartsToMessage message.parts).message = false →
      lookupAgent cfg (ClaudeAgentExecutor.resolveAgentName cfg message) =
        some ac →
      ac.enabled = true →
      ClaudeAgentExecutor.scopeDenied ac requestUser message = false →
      env.budgetCheck
          (ClaudeAgentExecutor.executeClientName requestUser message)
          (ClaudeAgentExecutor.executeBudgetOverride requestUser) = none →
      es.agentName = ClaudeAgentExecutor.resolveAgentName cfg message →
      ClaudeAgentExecutor.execute cfg env requestUser message =
        ClaudeAgentExecutor.ExecOutcome.orphanStillRunning p) ∧
    (∀ (rows : List SessionRow) (meta : SessionMetadata),
      meta ∈ SessionStore.loadFromDb rows → meta.processAlive = false) := by
  have horph : ClaudeAgentExecutor.execOrphanPid env es = some p := by
    unfold ClaudeAgentExecutor.execOrphanPid
    simp [hdead, hpid, hp0, halive]
  refine ⟨?_, ?_, ?_⟩
  · intro a r m2 hexec
    rcases execute_eq_cases cfg env requestUser message with
      ⟨he, hq⟩ |
      ⟨he, hlk, hq⟩ |
      ⟨ac2, he, hlk, henf, hq⟩ |
      ⟨ac2, he, hlk, hen2, hsc2, hq⟩ |
      ⟨ac2, e2, he, hlk, hen2, hscf2, hb2, hq⟩ |
      ⟨ac2, es2, he, hlk, hen2, hscf2, hb2, hes2, hmm2, hq⟩ |
      ⟨ac2, es2, p2, he, hlk, hen2, hscf2, hb2, hes2, hag2, ho2, hq⟩ |
      ⟨ac2, es2, he, hlk, hen2, hscf2, hb2, hes2, hag2, ho2, hq⟩ |
      ⟨ac2, he, hlk, hen2, hscf2, hb2, hes2, hq⟩
    · rw [hq] at hexec; simp at hexec
    · rw [hq] at hexec; simp at hexec
    · rw [hq] at hexec; simp at hexec
    · rw [hq] at hexec; simp at hexec
    · rw [hq] at hexec; simp at hexec
    · rw [hq] at hexec; simp at hexec
    · rw [hq] at hexec; simp at hexec
    · rw [hes] at hes2
      have heq : es = es2 := by simpa using hes2
      subst heq
      rw [horph] at ho2
      simp at ho2
    · rw [hes] at hes2
      simp at hes2
  · intro ac hne hl hen hscf hb hag
    unfold ClaudeAgentExecutor.execute
    simp [hne, hl, hen, hscf, hb, hes, hag, horph]
  · intro rows meta hmem
    unfold SessionStore.loadFromDb at hmem
    rw [List.mem_map] at hmem
    obtain ⟨row, _, heq⟩ := hmem
    rw [← heq]
    rfl

theorem C7_orphan_detection_witness :
    demoEnvOrphan.existingSession =
      some { demoSessionMeta with processAlive := false } ∧
    demoEnvOrphan.lastPid = some 424 ∧
    demoEnvOrphan.pidAlive 424 = true ∧
    ClaudeAgentExecutor.execute demoCfg demoEnvOrphan none demoMsgHello =
      ClaudeAgentExecutor.ExecOutcome.orphanStillRunning 424 :=
  ⟨rfl, rfl, rfl,
   (C7_orphan_detection demoCfg demoEnvOrphan none demoMsgHello
      { demoSessionMeta with processAlive := false } 424 rfl rfl rfl
      (by decide) rfl).2.1 demoAgentOpen (by decide) (by decide) rfl
      (by decide) rfl rfl⟩

-- ===========================================================================
-- C8 — agent resolution and agent-not-found
-- ===========================================================================

/-- C8 (amended): a truthy metadata agent that exists in the
configuration is resolved to itself; an unknown (or absent) metadata
agent silently falls back to the first enabled agent (or the literal
"general" when none is enabled) rather than producing an
agent-not-found reply; and, for a non-empty message, the reply is
agent-not-found-or-disabled exactly when the *resolved* agent has no
enabled configuration — e.g. when the metadata names a configured but
disabled agent, or no enabled agent exists at all. The original claim
fails because a request naming an unconfigured agent is dispatched to
the first enabled agent instead of being refused. -/
theorem C8_agent_resolution_amended (cfg : ServerConfig)
    (message : UserMessage) :
    (∀ a, message.metadata.bind MessageMeta.agent = some a → a ≠ "" →
        (lookupAgent cfg a).isSome = true →
        ClaudeAgentExecutor.resolveAgentName cfg message = a) ∧
    (∀ a, message.metadata.bind MessageMeta.agent = some a →
        lookupAgent cfg a = none →
        ClaudeAgentExecutor.resolveAgentName cfg message =
          (firstEnabledAgent cfg).getD "general") ∧
    (message.metadata.bind MessageMeta.agent = none →
        ClaudeAgentExecutor.resolveAgentName cfg message =
          (firstEnabledAgent cfg).getD "general") ∧
    (∀ (env : ClaudeAgentExecutor.ExecEnv) (requestUser : Option CallUser),
        ClaudeAgentExecutor.executeIsEmpty
          (convertPartsToMessage message.parts).message = false →
        (ClaudeAgentExecutor.execute cfg env requestUser message =
            ClaudeAgentExecutor.ExecOutcome.agentNotFoundOrDisabled
              (ClaudeAgentExecutor.resolveAgentName cfg message) ↔
          ∀ ac, lookupAgent cfg
              (ClaudeAgentExecutor.resolveAgentName cfg message) =
                some ac → ac.enabled = false)) := by
  refine ⟨?_, ?_, ?_, ?_⟩
  · intro a hmeta hne hsome
    unfold ClaudeAgentExecutor.resolveAgentName
    rw [hmeta]
    simp [hne, hsome]
  · intro a hmeta hnone
    unfold ClaudeAgentExecutor.resolveAgentName
    rw [hmeta]
    simp [hnone]
  · intro hmeta
    unfold ClaudeAgentExecutor.resolveAgentName
    rw [hmeta]
  · intro env requestUser hne
    constructor
    · intro hexec ac hac
      rcases execute_eq_cases cfg env requestUser message with
        ⟨he, hq⟩ |
        ⟨he, hlk, hq⟩ |
        ⟨ac2, he, hlk, henf, hq⟩ |
        ⟨ac2, he, hlk, hen2, hsc2, hq⟩ |
        ⟨ac2, e2, he, hlk, hen2, hscf2, hb2, hq⟩ |
        ⟨ac2, es2, he, hlk, hen2, hscf2, hb2, hes2, hmm2, hq⟩ |
        ⟨ac2, es2, p2, he, hlk, hen2, hscf2, hb2, hes2, hag2, ho2, hq⟩ |
        ⟨ac2, es2, he, hlk, hen2, hscf2, hb2, hes2, hag2, ho2, hq⟩ |
        ⟨ac2, he, hlk, hen2, hscf2, hb2, hes2, hq⟩
      · simp [hne] at he
      · rw [hac] at hlk
        simp at hlk
      · rw [hac] at hlk
        have : ac = ac2 := by simpa using hlk
        subst this
        exact henf
      · rw [hq] at hexec; simp at hexec
      · rw [hq] at hexec; simp at hexec
      · rw [hq] at hexec; simp at hexec
      · rw [hq] at hexec; simp at hexec
      · rw [hq] at hexec; simp at hexec
      · rw [hq] at hexec; simp at hexec
    · intro hdis
      cases hlk : lookupAgent cfg
          (ClaudeAgentExecutor.resolveAgentName cfg message) with
      | none =>
          unfold ClaudeAgentExecutor.execute
          simp [hne, hlk]
      | some ac =>
          have henf : ac.enabled = false := hdis ac hlk
          unfold ClaudeAgentExecutor.execute
          simp [hne, hlk, henf]

theorem C8_agent_resolution_amended_witness :
    (demoMsgCode.metadata.bind MessageMeta.agent = some "code") ∧
    ClaudeAgentExecutor.resolveAgentName demoCfg2 demoMsgCode = "code" ∧
    (demoMsgUnknownAgent.metadata.bind MessageMeta.agent =
      some "nonexistent") ∧
    lookupAgent demoCfg "nonexistent" = none ∧
    ClaudeAgentExecutor.resolveAgentName demoCfg demoMsgUnknownAgent =
      (firstEnabledAgent demoCfg).getD "general" :=
  ⟨rfl,
   (C8_agent_resolution_amended demoCfg2 demoMsgCode).1 "code" rfl
     (by decide) (by decide),
   rfl, by decide,
   (C8_agent_resolution_amended demoCfg demoMsgUnknownAgent).2.1
     "nonexistent" rfl (by decide)⟩

/-- C8 counterexample: the configuration has the single enabled agent
"general"; a message whose metadata names the unconfigured agent
"nonexistent" is not answered with agent-not-found — it is dispatched to
"general". -/
theorem C8_counterexample :
    lookupAgent demoCfg "nonexistent" = none ∧
    ClaudeAgentExecutor.execute demoCfg demoEnv none demoMsgUnknownAgent =
      ClaudeAgentExecutor.ExecOutcome.dispatched "general" none
        (Sum.inl "Hello") :=
  ⟨by decide, by decide⟩

-- ===========================================================================
-- C9 — buffer overflow destroys the session; pool bookkeeping
-- ===========================================================================

theorem assocLookup_update_self {α : Type} :
    ∀ (l : List (String × α)) (k : String) (v s : α),
      assocLookup l k = some s →
      assocLookup (assocUpdate l k v) k = some v
  | [], k, v, s, h => by simp [assocLookup] at h
  | p :: l, k, v, s, h => by
      by_cases hk : (p.1 == k) = true
      · simp [assocLookup, assocUpdate, List.find?, hk]
      · have hk2 : (p.1 == k) = false := by simpa using hk
        unfold assocLookup at h
        rw [List.find?_cons_of_neg (p := fun q => q.1 == k) (a := p) l hk]
          at h
        unfold assocUpdate
        simp only [List.map_cons, hk2, Bool.false_eq_true, if_false]
        unfold assocLookup
        rw [List.find?_cons_of_neg (p := fun q => q.1 == k) (a := p)
          (List.map (fun q => if q.1 == k then (k, v) else q) l) hk]
        exact assocLookup_update_self l k v s h

theorem assocUpdate_length {α : Type} (l : List (String × α)) (k : String)
    (v : α) : (assocUpdate l k v).length = l.length :=
  List.length_map _ _

theorem assocRemove_length_lt {α : Type} (l : List (String × α))
    (k : String) (s : α) (h : assocLookup l k = some s) :
    (assocRemove l k).length < l.length := by
  unfold assocRemove
  rw [List.length_filter_lt_length_iff_exists]
  unfold assocLookup at h
  cases hf : l.find? (fun p => p.1 == k) with
  | none => rw [hf] at h; simp at h
  | some pr =>
      refine ⟨pr, List.mem_of_find?_eq_some hf, ?_⟩
      have hpk := List.find?_some hf
      simp only [hpk]
      simp

theorem handleStdoutData_overflow (parse : String → StreamLine)
    (s : ClaudeSession) (chunk : String)
    (hover : (s.lineBuffer ++ chunk).length > s.maxBufferBytes) :
    ClaudeSession.handleStdoutData parse s chunk =
      ClaudeSession.destroy { s with lineBuffer := s.lineBuffer ++ chunk } := by
  unfold ClaudeSession.handleStdoutData
  rw [if_pos hover]

theorem destroy_procKilled (s : ClaudeSession)
    (hd : s.state ≠ SessionState.dead) :
    (ClaudeSession.destroy s).1.procKilled = true := by
  unfold ClaudeSession.destroy ClaudeSession.rejectPending
    ClaudeSession.resolveInitError
  simp only [hd, if_false]

/-- C9 (amended): when a session's accumulated stdout buffer exceeds its
byte limit without a newline, the session is destroyed — its state
becomes `dead` and the process group is signalled — but the pool's
live-session count is *not* decremented at that moment: the dead session
stays in the map (explicit destroy never fires the death callback), so
the slot is not freed for other contexts; only a later `sendMessage` for
the same contextId forgets the dead entry and, within capacity, accepts
a message on a fresh session. -/
theorem C9_buffer_overflow_amended (parse : String → StreamLine)
    (r : ClaudeRunner) (ctx chunk : String) (s : ClaudeSession)
    (hl : assocLookup r.sessions ctx = some s)
    (hdet : s.listenersDetached = false)
    (hover : (s.lineBuffer ++ chunk).length > s.maxBufferBytes)
    (hnd : s.state ≠ SessionState.dead)
    (hcap : r.sessions.length ≤ r.maxConcurrent) :
    ∃ s2, assocLookup (ClaudeRunner.onStdout parse r ctx chunk).1.sessions
        ctx = some s2 ∧
      s2.state = SessionState.dead ∧
      s2.procKilled = true ∧
      (ClaudeRunner.onStdout parse r ctx chunk).1.concurrentCount =
        r.concurrentCount ∧
      (ClaudeRunner.sendMessage (ClaudeRunner.onStdout parse r ctx chunk).1
          ctx none).2 =
        ClaudeRunner.RunnerSendOutcome.sessionSend
          (ClaudeSession.SendOutcome.accepted 0) := by
  have hrw : ClaudeRunner.onStdout parse r ctx chunk =
      ({ r with
          sessions :=
            assocUpdate r.sessions ctx
              (ClaudeSession.destroy
                { s with lineBuffer := s.lineBuffer ++ chunk }).1 },
        (ClaudeSession.destroy
          { s with lineBuffer := s.lineBuffer ++ chunk }).2) := by
    unfold ClaudeRunner.onStdout
    rw [hl]
    simp only [hdet, Bool.false_eq_true, if_false]
    rw [handleStdoutData_overflow parse s chunk hover, hdet]
  have hsd : (ClaudeSession.destroy
      { s with lineBuffer := s.lineBuffer ++ chunk }).1.state =
        SessionState.dead :=
    destroy_state_dead _ hnd
  have hsk : (ClaudeSession.destroy
      { s with lineBuffer := s.lineBuffer ++ chunk }).1.procKilled = true :=
    destroy_procKilled _ hnd
  have hlook : assocLookup
      (ClaudeRunner.onStdout parse r ctx chunk).1.sessions ctx =
      some (ClaudeSession.destroy
        { s with lineBuffer := s.lineBuffer ++ chunk }).1 := by
    rw [hrw]
    exact assocLookup_update_self r.sessions ctx _ s hl
  have hlen : (ClaudeRunner.onStdout parse r ctx chunk).1.sessions.length
      = r.sessions.length := by
    rw [hrw]
    exact assocUpdate_length r.sessions ctx _
  refine ⟨(ClaudeSession.destroy
      { s with lineBuffer := s.lineBuffer ++ chunk }).1,
    hlook, hsd, hsk, ?_, ?_⟩
  · unfold ClaudeRunner.concurrentCount
    exact hlen
  · unfold ClaudeRunner.sendMessage
    rw [hlook]
    simp only [hsd, if_true]
    have hrem : (assocRemove
        (ClaudeRunner.onStdout parse r ctx chunk).1.sessions ctx).length <
        (ClaudeRunner.onStdout parse r ctx chunk).1.sessions.length :=
      assocRemove_length_lt _ ctx _ hlook
    have hmaxc : (ClaudeRunner.onStdout parse r ctx chunk).1.maxConcurrent
        = r.maxConcurrent := by
      rw [hrw]
    have hnotfull :
        ¬((ClaudeRunner.onStdout parse r ctx chunk).1.maxConcurrent ≤
          (assocRemove
            (ClaudeRunner.onStdout parse r ctx chunk).1.sessions
            ctx).length) := by
      rw [hmaxc]
      exact Nat.not_le.2 (Nat.lt_of_lt_of_le (hlen ▸ hrem) hcap)
    simp only [hnotfull, if_false]
    rfl

theorem C9_buffer_overflow_amended_witness :
    (assocLookup demoRunner.sessions "ctx-a").isSome = true ∧
    (∃ s2, assocLookup
        (ClaudeRunner.onStdout demoParse demoRunner "ctx-a"
          "123456789").1.sessions "ctx-a" = some s2 ∧
      s2.state = SessionState.dead ∧
      s2.procKilled = true ∧
      (ClaudeRunner.onStdout demoParse demoRunner "ctx-a"
          "123456789").1.concurrentCount = demoRunner.concurrentCount ∧
      (ClaudeRunner.sendMessage
          (ClaudeRunner.onStdout demoParse demoRunner "ctx-a"
            "123456789").1 "ctx-a" none).2 =
        ClaudeRunner.RunnerSendOutcome.sessionSend
          (ClaudeSession.SendOutcome.accepted 0)) :=
  ⟨by decide,
   C9_buffer_overflow_amended demoParse demoRunner "ctx-a" "123456789"
     { newSession 8 with
         state := SessionState.processing
         pendingId := some 0
         nextMsgId := 1
         timerArmed := true }
     (by decide) rfl (by decide) (by decide) (by decide)⟩

/-- C9 counterexample: after the overflow chunk destroys the ctx-a
session (state `dead`, process signalled), the pool still counts one
session — the count was not decremented — and a send for a *different*
context is refused with capacity, so the slot was not freed for other
contexts. -/
theorem C9_counterexample :
    ((ClaudeRunner.onStdout demoParse demoRunner "ctx-a"
        "123456789").1.concurrentCount = 1) ∧
    ((assocLookup (ClaudeRunner.onStdout demoParse demoRunner "ctx-a"
        "123456789").1.sessions "ctx-a").map ClaudeSession.state =
      some SessionState.dead) ∧
    ((ClaudeRunner.sendMessage
        (ClaudeRunner.onStdout demoParse demoRunner "ctx-a"
          "123456789").1 "ctx-b" none).2 =
      ClaudeRunner.RunnerSendOutcome.capacityError) := by
  refine ⟨?_, ?_, ?_⟩ <;> decide
